import Mathlib

/-!
Verification of the regent-sdk compliance engine against its specification.

The definitions below are a shallow embedding of the Rust sources:
  - src/host_handler/{host_handler.rs, privilege.rs, localhost.rs, ssh2.rs}
  - src/state/compliance.rs, src/state/attribute/** (the compliance engine)
  - src/managed_host.rs
  - src/modules/packages/apt.rs (the older module draft, where a claim cites it)

Handlers are modelled as deterministic environments: `run_command` and
`is_this_command_available` never fail at the transport level (the engine
unwraps their results), and the host state is fixed for the duration of a
computation.  Every engine function additionally returns the list of handler
invocations it performed, so that "command X was (not) issued" is expressible.
Rust panics (unwrap on None, string-parse failures) are modelled as
`Error.AnyOtherError` values prefixed with "panicked"; no claim exercises a
panicking path.
-/

deriving instance DecidableEq for Except

namespace Regent

/-- CommandResult (src/command.rs usage): return code, stdout, stderr of an executed command. -/
structure CommandResult where
  return_code : Int
  stdout : String
  stderr : String
deriving Repr, DecidableEq

/-- Privilege (src/host_handler/privilege.rs): execution identity modifier. -/
inductive Privilege
  | None
  | WithSudo
  | WithSudoRs
deriving Repr, DecidableEq

/-- Credentials (src/host_handler/privilege.rs): username and password. -/
structure Credentials where
  username : String
  password : String
deriving Repr, DecidableEq

/-- WhichUser (src/host_handler/localhost.rs): the identity commands run as. -/
inductive WhichUser
  | CurrentUser
  | PasswordLessUser (username : String)
  | UsernamePassword (credentials : Credentials)
deriving Repr, DecidableEq

/-- Error (modelled from the spec, section 7: the crate error.rs is not under src/). -/
inductive Error
  | FailedInitialization (detail : String)
  | FailedTcpBinding (detail : String)
  | FailureToEstablishConnection (detail : String)
  | FailureToRunCommand (detail : String)
  | NotConnectedToHost
  | FailedDryRunEvaluation (detail : String)
  | FailedDryRunEvaluationParallel (detail : String)
  | IncoherentExpectedState (detail : String)
  | InternalLogicError (detail : String)
  | WrongInitialization
  | MissingInitialization (detail : String)
  | AnyOtherError (detail : String)
deriving Repr, DecidableEq

/-- Rust panics (unwrap on None, parse failures) are modelled as an AnyOtherError. -/
def panic_err (msg : String) : Error :=
  Error.AnyOtherError ("panicked : " ++ msg)

/-- InternalApiCallOutcome (src/managed_host.rs). -/
inductive InternalApiCallOutcome
  | Success
  | Failure (detail : String)
  | AllowedFailure (detail : String)
deriving Repr, DecidableEq

/-- final_command (src/host_handler/host_handler.rs, lines 30-56): composes the
privilege wrapper around a raw command for a given identity. -/
def final_command (cmd : String) (privilege : Privilege) (user : WhichUser) : String :=
  match user with
  | WhichUser.CurrentUser =>
    match privilege with
    | Privilege.None => cmd ++ " 2>&1"
    | Privilege.WithSudo => "sudo " ++ cmd ++ " 2>&1"
    | Privilege.WithSudoRs => "sudo-rs " ++ cmd ++ " 2>&1"
  | WhichUser.PasswordLessUser username =>
    match privilege with
    | Privilege.None | Privilege.WithSudo =>
        "sudo -u " ++ username ++ " " ++ cmd ++ " 2>&1"
    | Privilege.WithSudoRs =>
        "sudo-rs -u " ++ username ++ " " ++ cmd ++ " 2>&1"
  | WhichUser.UsernamePassword credentials =>
    match privilege with
    | Privilege.None | Privilege.WithSudo =>
        "echo " ++ credentials.password ++ " | sudo -S -u " ++
          credentials.username ++ " " ++ cmd ++ " 2>&1"
    | Privilege.WithSudoRs =>
        "echo " ++ credentials.password ++ " | sudo-rs -S -u " ++
          credentials.username ++ " " ++ cmd ++ " 2>&1"

/-- Specification side of the refinement for claim C1: the emitted-command table of
spec section 3, transcribed from the spec text (not from the code). -/
def spec_emitted_command (cmd : String) (privilege : Privilege) (user : WhichUser) : String :=
  match user, privilege with
  | WhichUser.CurrentUser, Privilege.None => cmd ++ " 2>&1"
  | WhichUser.CurrentUser, Privilege.WithSudo => "sudo " ++ cmd ++ " 2>&1"
  | WhichUser.CurrentUser, Privilege.WithSudoRs => "sudo-rs " ++ cmd ++ " 2>&1"
  | WhichUser.PasswordLessUser u, Privilege.None =>
      "sudo -u " ++ u ++ " " ++ cmd ++ " 2>&1"
  | WhichUser.PasswordLessUser u, Privilege.WithSudo =>
      "sudo -u " ++ u ++ " " ++ cmd ++ " 2>&1"
  | WhichUser.PasswordLessUser u, Privilege.WithSudoRs =>
      "sudo-rs -u " ++ u ++ " " ++ cmd ++ " 2>&1"
  | WhichUser.UsernamePassword c, Privilege.None =>
      "echo " ++ c.password ++ " | sudo -S -u " ++ c.username ++ " " ++ cmd ++ " 2>&1"
  | WhichUser.UsernamePassword c, Privilege.WithSudo =>
      "echo " ++ c.password ++ " | sudo -S -u " ++ c.username ++ " " ++ cmd ++ " 2>&1"
  | WhichUser.UsernamePassword c, Privilege.WithSudoRs =>
      "echo " ++ c.password ++ " | sudo-rs -S -u " ++ c.username ++ " " ++ cmd ++ " 2>&1"

/-- Substring containment, standing in for Rust str contains. -/
def contains_substring (haystack needle : String) : Bool :=
  (List.range (haystack.length + 1)).any
    (fun i => needle.toList.isPrefixOf (haystack.toList.drop i))

/-- Rust u64 parse on the digit strings in scope: all characters must be digits. -/
def parse_u64 (s : String) : Option Nat :=
  if !s.data.isEmpty && s.data.all Char.isDigit then
    some (s.data.foldl (fun n c => n * 10 + (c.toNat - 48)) 0)
  else Option.none

/-- Rust str trim: whitespace stripped from both ends. -/
def rust_trim (s : String) : String :=
  ⟨((s.data.dropWhile Char.isWhitespace).reverse.dropWhile Char.isWhitespace).reverse⟩

/-- Splitting of a character list on a separator character; the result always has
one more group than there are separators. -/
def split_char (sep : Char) : List Char → List (List Char)
  | [] => [[]]
  | c :: rest =>
    match split_char sep rest with
    | [] => [[]]
    | g :: gs => if c == sep then [] :: g :: gs else (c :: g) :: gs

/-- Rust String lines(): split on newline, drop the trailing empty segment of a
newline-terminated string, strip a trailing carriage return from each line. -/
def rust_lines (s : String) : List String :=
  if s.data.isEmpty then []
  else
    let parts := (split_char (Char.ofNat 10) s.data).map (fun l => (⟨l⟩ : String))
    let parts :=
      if s.data.getLast? == some (Char.ofNat 10) then parts.dropLast else parts
    parts.map (fun l =>
      if l.data.getLast? == some (Char.ofNat 13) then (⟨l.data.dropLast⟩ : String)
      else l)

/-- One invocation of the handler by the engine: either run_command or
is_this_command_available, with the privilege it was passed. -/
inductive HandlerCall
  | Run (cmd : String) (priv : Privilege)
  | Avail (cmd : String) (priv : Privilege)
deriving Repr, DecidableEq

/-- Privilege carried by a handler invocation. -/
def HandlerCall.priv : HandlerCall → Privilege
  | HandlerCall.Run _ p => p
  | HandlerCall.Avail _ p => p

/-- Sequence of handler invocations performed by an engine computation. -/
abbrev Trace := List HandlerCall

/-- Deterministic handler model (HostHandler trait, src/host_handler/host_handler.rs):
run_command and is_this_command_available as total functions of the command and the
privilege, plus the is_connected flag.  The engine unwraps transport results, so the
transport level never fails here; the host state is fixed during one computation. -/
structure Env where
  run : String → Privilege → CommandResult
  avail : String → Privilege → Bool
  connected : Bool

/-- Rendering of a string by the derived Rust Debug implementation: quoted.  The
escaping Rust applies is the identity on the alphanumeric inputs used here. -/
def debug_quote (s : String) : String :=
  "\"" ++ s ++ "\""

/-- Debug output of Credentials (src/host_handler/privilege.rs, derive(Debug)):
both fields are printed verbatim, the password included. -/
def Credentials.fmt_debug (c : Credentials) : String :=
  "Credentials \x7b username: " ++ debug_quote c.username ++
    ", password: " ++ debug_quote c.password ++ " \x7d"

/-- Debug output of WhichUser (src/host_handler/localhost.rs, derive(Debug)):
the UsernamePassword variant nests the derived Credentials output. -/
def WhichUser.fmt_debug : WhichUser → String
  | WhichUser.CurrentUser => "CurrentUser"
  | WhichUser.PasswordLessUser u => "PasswordLessUser(" ++ debug_quote u ++ ")"
  | WhichUser.UsernamePassword c => "UsernamePassword(" ++ Credentials.fmt_debug c ++ ")"

/-- Ssh2AuthMethod (src/host_handler/ssh2.rs): SSH authentication data.  PathBuf
and Pem payloads are represented as strings. -/
inductive Ssh2AuthMethod
  | UsernamePassword (credentials : Credentials)
  | KeyFile (username : String) (privatekeypath : String)
  | KeyMemory (username : String) (pem : String)
  | Agent (agent_name : String)
deriving Repr, DecidableEq

/-- Debug output of Ssh2AuthMethod (src/host_handler/ssh2.rs, lines 249-270,
hand-written impl): passwords and key material are replaced by asterisks. -/
def Ssh2AuthMethod.fmt_debug : Ssh2AuthMethod → String
  | Ssh2AuthMethod.UsernamePassword creds =>
      "UsernamePassword(Credentials \x7b username: " ++ debug_quote creds.username ++
        ", password: \"********\" \x7d)"
  | Ssh2AuthMethod.KeyFile username key_path =>
      "KeyFile((" ++ debug_quote username ++ ", " ++ debug_quote key_path ++ "))"
  | Ssh2AuthMethod.KeyMemory username _ =>
      "KeyMemory((" ++ debug_quote username ++ ", \"********\"))"
  | Ssh2AuthMethod.Agent agent_name =>
      "Agent(" ++ debug_quote agent_name ++ ")"

/-- AptModuleInternalApiCall (src/state/attribute/package/apt.rs). -/
inductive AptModuleInternalApiCall
  | Install (package : String)
  | Remove (package : String)
  | Upgrade
deriving Repr, DecidableEq

/-- PackageExpectedState (shared shape of the per-manager enums in
src/state/attribute/package/{apt,pacman,yumdnf}.rs). -/
inductive PackageExpectedState
  | Present
  | Absent
deriving Repr, DecidableEq

/-- AptApiCall (src/state/attribute/package/apt.rs). -/
structure AptApiCall where
  api_call : AptModuleInternalApiCall
  privilege : Privilege
deriving Repr, DecidableEq

/-- PacmanModuleInternalApiCall (src/state/attribute/package/pacman.rs). -/
inductive PacmanModuleInternalApiCall
  | Install (package : String)
  | Remove (package : String)
  | Upgrade
deriving Repr, DecidableEq

/-- PacmanApiCall (src/state/attribute/package/pacman.rs). -/
structure PacmanApiCall where
  api_call : PacmanModuleInternalApiCall
  privilege : Privilege
deriving Repr, DecidableEq

/-- RedHatFlavoredPackageManager (src/state/attribute/package/yumdnf.rs). -/
inductive RedHatFlavoredPackageManager
  | Yum
  | Dnf
deriving Repr, DecidableEq

/-- command_name (src/state/attribute/package/yumdnf.rs). -/
def RedHatFlavoredPackageManager.command_name : RedHatFlavoredPackageManager → String
  | RedHatFlavoredPackageManager.Dnf => "dnf"
  | RedHatFlavoredPackageManager.Yum => "yum"

/-- YumDnfModuleInternalApiCall (src/state/attribute/package/yumdnf.rs). -/
inductive YumDnfModuleInternalApiCall
  | Install (package : String)
  | Remove (package : String)
  | Upgrade
deriving Repr, DecidableEq

/-- YumDnfApiCall (src/state/attribute/package/yumdnf.rs). -/
structure YumDnfApiCall where
  api_call : YumDnfModuleInternalApiCall
  package_manager : RedHatFlavoredPackageManager
  privilege : Privilege
deriving Repr, DecidableEq

/-- LineExpectedPosition (src/state/attribute/utilities/lineinfile.rs). -/
inductive LineExpectedPosition
  | Top
  | Bottom
  | Anywhere
  | SpecificLineNumber (n : Nat)
deriving Repr, DecidableEq

/-- LineInFileModuleInternalApiCall (src/state/attribute/utilities/lineinfile.rs). -/
inductive LineInFileModuleInternalApiCall
  | Add (position : LineExpectedPosition)
  | Delete (line_numbers : List Nat)
deriving Repr, DecidableEq

/-- LineInFileApiCall (src/state/attribute/utilities/lineinfile.rs). -/
structure LineInFileApiCall where
  file_path : String
  line_content : String
  api_call : LineInFileModuleInternalApiCall
  privilege : Privilege
deriving Repr, DecidableEq

/-- ServiceModuleInternalApiCall (src/state/attribute/system/service.rs). -/
inductive ServiceModuleInternalApiCall
  | Start (service : String)
  | Stop (service : String)
  | Enable (service : String)
  | Disable (service : String)
deriving Repr, DecidableEq

/-- ServiceApiCall (src/state/attribute/system/service.rs). -/
structure ServiceApiCall where
  api_call : ServiceModuleInternalApiCall
  privilege : Privilege
deriving Repr, DecidableEq

/-- CommandApiCall (src/state/attribute/shell/command.rs). -/
structure CommandApiCall where
  cmd : String
  privilege : Privilege
deriving Repr, DecidableEq

/-- PingApiCall (src/state/attribute/utilities/ping.rs). -/
structure PingApiCall where
  privilege : Privilege
deriving Repr, DecidableEq

/-- DebugApiCall (src/state/attribute/utilities/debug.rs). -/
structure DebugApiCall where
deriving Repr, DecidableEq

/-- Remediation (src/state/attribute/mod.rs): either an already-matched sub-goal
kept for reporting, or a concrete api call. -/
inductive Remediation
  | None (reason : String)
  | Pacman (api_call : PacmanApiCall)
  | Apt (api_call : AptApiCall)
  | YumDnf (api_call : YumDnfApiCall)
  | LineInFile (api_call : LineInFileApiCall)
  | Debug (api_call : DebugApiCall)
  | Ping (api_call : PingApiCall)
  | Service (api_call : ServiceApiCall)
  | Command (api_call : CommandApiCall)
deriving Repr, DecidableEq

/-- AttributeComplianceAssessment (src/state/compliance.rs). -/
inductive AttributeComplianceAssessment
  | Compliant
  | NonCompliant (remediations : List Remediation)
deriving Repr, DecidableEq

/-- AttributeComplianceStatus (src/state/compliance.rs). -/
inductive AttributeComplianceStatus
  | AlreadyCompliant
  | ReachedCompliance
  | NonCompliant
  | FailedReachedCompliance
deriving Repr, DecidableEq

/-- AttributeComplianceResult (src/state/compliance.rs). -/
structure AttributeComplianceResult where
  status : AttributeComplianceStatus
  details : Option (List (Remediation × InternalApiCallOutcome))
deriving Repr, DecidableEq

/-- HostComplianceStatus (modelled from the spec, section 3; its declaration lives
with the host-level result types that are not under src/). -/
inductive HostComplianceStatus
  | AlreadyCompliant
  | NonCompliant
  | ReachedCompliance
  | FailedReachedCompliance
deriving Repr, DecidableEq

/-- Outcome classification shared verbatim by the call implementations of the
package, service and command api calls: success iff exit code 0, otherwise a
Failure carrying RC, STDOUT and STDERR. -/
def rc_outcome (r : CommandResult) : InternalApiCallOutcome :=
  if r.return_code == 0 then InternalApiCallOutcome.Success
  else
    InternalApiCallOutcome.Failure
      ("RC : " ++ toString r.return_code ++ ", STDOUT : " ++ r.stdout ++
        ", STDERR : " ++ r.stderr)

/-- AptApiCall call (src/state/attribute/package/apt.rs, lines 205-238).  The
Install arm issues only the install command; apt-get update appears only inside
the Upgrade arm's compound command. -/
def AptApiCall.call (self : AptApiCall) (env : Env) :
    Except Error InternalApiCallOutcome × Trace :=
  let cp : String × Privilege :=
    match self.api_call with
    | AptModuleInternalApiCall.Install package_name =>
        ("DEBIAN_FRONTEND=noninteractive apt-get install -y " ++ package_name,
          self.privilege)
    | AptModuleInternalApiCall.Remove package_name =>
        ("DEBIAN_FRONTEND=noninteractive apt-get remove --purge -y " ++ package_name,
          self.privilege)
    | AptModuleInternalApiCall.Upgrade =>
        ("apt-get update && DEBIAN_FRONTEND=noninteractive apt-get upgrade -y",
          self.privilege)
  let cmd_result := env.run cp.1 cp.2
  (Except.ok (rc_outcome cmd_result), [HandlerCall.Run cp.1 cp.2])

/-- PacmanApiCall call (src/state/attribute/package/pacman.rs, lines 200-223). -/
def PacmanApiCall.call (self : PacmanApiCall) (env : Env) :
    Except Error InternalApiCallOutcome × Trace :=
  let cp : String × Privilege :=
    match self.api_call with
    | PacmanModuleInternalApiCall.Install package_name =>
        ("pacman --noconfirm -S " ++ package_name, self.privilege)
    | PacmanModuleInternalApiCall.Remove package_name =>
        ("pacman --noconfirm -R " ++ package_name, self.privilege)
    | PacmanModuleInternalApiCall.Upgrade =>
        ("pacman -Syu", self.privilege)
  let cmd_result := env.run cp.1 cp.2
  (Except.ok (rc_outcome cmd_result), [HandlerCall.Run cp.1 cp.2])

/-- YumDnfApiCall call (src/state/attribute/package/yumdnf.rs, lines 241-280). -/
def YumDnfApiCall.call (self : YumDnfApiCall) (env : Env) :
    Except Error InternalApiCallOutcome × Trace :=
  let cp : String × Privilege :=
    match self.api_call with
    | YumDnfModuleInternalApiCall.Install package_name =>
        (self.package_manager.command_name ++ " install -y " ++ package_name,
          self.privilege)
    | YumDnfModuleInternalApiCall.Remove package_name =>
        (self.package_manager.command_name ++ " remove -y " ++ package_name,
          self.privilege)
    | YumDnfModuleInternalApiCall.Upgrade =>
        (self.package_manager.command_name ++ " update -y --refresh", self.privilege)
  let cmd_result := env.run cp.1 cp.2
  (Except.ok (rc_outcome cmd_result), [HandlerCall.Run cp.1 cp.2])

/-- ServiceApiCall call (src/state/attribute/system/service.rs, lines 279-309). -/
def ServiceApiCall.call (self : ServiceApiCall) (env : Env) :
    Except Error InternalApiCallOutcome × Trace :=
  let cp : String × Privilege :=
    match self.api_call with
    | ServiceModuleInternalApiCall.Start service_name =>
        ("systemctl start " ++ service_name, self.privilege)
    | ServiceModuleInternalApiCall.Stop service_name =>
        ("systemctl stop " ++ service_name, self.privilege)
    | ServiceModuleInternalApiCall.Enable service_name =>
        ("systemctl enable " ++ service_name, self.privilege)
    | ServiceModuleInternalApiCall.Disable service_name =>
        ("systemctl disable " ++ service_name, self.privilege)
  let cmd_result := env.run cp.1 cp.2
  (Except.ok (rc_outcome cmd_result), [HandlerCall.Run cp.1 cp.2])

/-- CommandApiCall call (src/state/attribute/shell/command.rs, lines 52-66). -/
def CommandApiCall.call (self : CommandApiCall) (env : Env) :
    Except Error InternalApiCallOutcome × Trace :=
  let cmd_result := env.run self.cmd self.privilege
  (Except.ok (rc_outcome cmd_result), [HandlerCall.Run self.cmd self.privilege])

/-- PingApiCall call (src/state/attribute/utilities/ping.rs): always succeeds. -/
def PingApiCall.call (_self : PingApiCall) (_env : Env) :
    Except Error InternalApiCallOutcome × Trace :=
  (Except.ok InternalApiCallOutcome.Success, [])

/-- DebugApiCall call (src/state/attribute/utilities/debug.rs): always succeeds. -/
def DebugApiCall.call (_self : DebugApiCall) (_env : Env) :
    Except Error InternalApiCallOutcome × Trace :=
  (Except.ok InternalApiCallOutcome.Success, [])

/-- Parsing of grep -n output lines into 1-based line numbers
(src/state/attribute/utilities/lineinfile.rs, is_line_present): each line is split
at the first colon and the prefix parsed as u64; a parse failure is a Rust panic,
modelled as the none result. -/
def parse_line_numbers : List String → Option (List Nat)
  | [] => some []
  | l :: rest =>
    match parse_u64 ⟨l.data.takeWhile (fun c => c != Char.ofNat 58)⟩ with
    | Option.none => Option.none
    | some n =>
      match parse_line_numbers rest with
      | Option.none => Option.none
      | some ns => some (n :: ns)

/-- is_line_present (src/state/attribute/utilities/lineinfile.rs, lines 403-425):
grep for the fixed string; exit 0 yields the occurrence line numbers, otherwise
the line is absent. -/
def is_line_present (env : Env) (line : String) (filepath : String)
    (privilege : Privilege) : Except Error (Option (List Nat)) × Trace :=
  let cmd := "grep -n -F -w \x27" ++ line ++ "\x27 " ++ filepath
  let test := env.run cmd privilege
  if test.return_code == 0 then
    match parse_line_numbers (rust_lines test.stdout) with
    | Option.none =>
        (Except.error (panic_err "failed to parse a grep line number"),
          [HandlerCall.Run cmd privilege])
    | some ns => (Except.ok (some ns), [HandlerCall.Run cmd privilege])
  else (Except.ok Option.none, [HandlerCall.Run cmd privilege])

/-- Outcome of the line-adding shell command
(src/state/attribute/utilities/lineinfile.rs, lines 359-370). -/
def line_add_outcome (r : CommandResult) : InternalApiCallOutcome :=
  if r.return_code == 0 then InternalApiCallOutcome.Success
  else
    InternalApiCallOutcome.Failure
      ("Failed to add line. RC : " ++ toString r.return_code ++ ", STDOUT : " ++
        r.stdout ++ ", STDERR : " ++ r.stderr)

/-- Outcome of the line-deleting shell command
(src/state/attribute/utilities/lineinfile.rs, lines 389-396). -/
def line_delete_outcome (r : CommandResult) : InternalApiCallOutcome :=
  if r.return_code == 0 then InternalApiCallOutcome.Success
  else
    InternalApiCallOutcome.Failure
      ("Failed to remove line. RC : " ++ toString r.return_code ++ ", STDOUT : " ++
        r.stdout ++ ", STDERR : " ++ r.stderr)

/-- LineInFileApiCall call (src/state/attribute/utilities/lineinfile.rs, lines
302-399).  Add: probe the file line count with wc; an empty file accepts
top/bottom/anywhere or line 1 via an echo append, rejects any other specific line
number with a Failure; a non-empty file gets a sed insert.  Delete: one sed
command listing every line number. -/
def LineInFileApiCall.call (self : LineInFileApiCall) (env : Env) :
    Except Error InternalApiCallOutcome × Trace :=
  match self.api_call with
  | LineInFileModuleInternalApiCall.Add line_expected_position =>
    let wc_cmd := "wc -l " ++ self.file_path ++ " | cut -f 1 -d \x27 \x27"
    let wc_result := env.run wc_cmd self.privilege
    match parse_u64 (rust_trim wc_result.stdout) with
    | Option.none =>
        (Except.error (panic_err "failed to parse the file line count"),
          [HandlerCall.Run wc_cmd self.privilege])
    | some filenumberoflines =>
      if filenumberoflines == 0 then
        match line_expected_position with
        | LineExpectedPosition.Top
        | LineExpectedPosition.Bottom
        | LineExpectedPosition.Anywhere =>
          let cmd := "echo \x27" ++ self.line_content ++ "\x27 >> " ++ self.file_path
          let cmd_result := env.run cmd self.privilege
          (Except.ok (line_add_outcome cmd_result),
            [HandlerCall.Run wc_cmd self.privilege, HandlerCall.Run cmd self.privilege])
        | LineExpectedPosition.SpecificLineNumber 1 =>
          let cmd := "echo \x27" ++ self.line_content ++ "\x27 >> " ++ self.file_path
          let cmd_result := env.run cmd self.privilege
          (Except.ok (line_add_outcome cmd_result),
            [HandlerCall.Run wc_cmd self.privilege, HandlerCall.Run cmd self.privilege])
        | LineExpectedPosition.SpecificLineNumber _ =>
          (Except.ok (InternalApiCallOutcome.Failure
              "Position value out of range (use \"bottom\" instead)"),
            [HandlerCall.Run wc_cmd self.privilege])
      else
        let future_line_number : Nat :=
          match line_expected_position with
          | LineExpectedPosition.Top => 1
          | LineExpectedPosition.Bottom | LineExpectedPosition.Anywhere =>
              filenumberoflines
          | LineExpectedPosition.SpecificLineNumber specific_line_number =>
              specific_line_number
        let cmd := "sed -i \x27" ++ toString future_line_number ++ " i " ++
          self.line_content ++ "\x27 " ++ self.file_path
        let cmd_result := env.run cmd self.privilege
        (Except.ok (line_add_outcome cmd_result),
          [HandlerCall.Run wc_cmd self.privilege, HandlerCall.Run cmd self.privilege])
  | LineInFileModuleInternalApiCall.Delete line_numbers =>
    let formatted_line_numbers :=
      String.join (line_numbers.map (fun i => toString i ++ "d;"))
    if formatted_line_numbers.length == 0 then
      (Except.error (panic_err "string index out of bounds"), [])
    else
      let formatted_line_numbers := formatted_line_numbers.dropRight 1
      let cmd := "sed -i \x27" ++ formatted_line_numbers ++ "\x27 " ++ self.file_path
      let cmd_result := env.run cmd self.privilege
      (Except.ok (line_delete_outcome cmd_result), [HandlerCall.Run cmd self.privilege])

/-- AptBlockExpectedState (src/state/attribute/package/apt.rs). -/
structure AptBlockExpectedState where
  state : Option PackageExpectedState
  package : Option String
  upgrade : Option Bool
deriving Repr, DecidableEq

/-- PacmanBlockExpectedState (src/state/attribute/package/pacman.rs). -/
structure PacmanBlockExpectedState where
  state : Option PackageExpectedState
  package : Option String
  upgrade : Option Bool
deriving Repr, DecidableEq

/-- YumDnfBlockExpectedState (src/state/attribute/package/yumdnf.rs). -/
structure YumDnfBlockExpectedState where
  state : Option PackageExpectedState
  package : Option String
  upgrade : Option Bool
deriving Repr, DecidableEq

/-- LineExpectedState (src/state/attribute/utilities/lineinfile.rs). -/
inductive LineExpectedState
  | Present
  | Absent
deriving Repr, DecidableEq

/-- LineInFileBlockExpectedState (src/state/attribute/utilities/lineinfile.rs). -/
structure LineInFileBlockExpectedState where
  filepath : String
  line : Option String
  state : LineExpectedState
  position : Option LineExpectedPosition
deriving Repr, DecidableEq

/-- ServiceExpectedStatus (src/state/attribute/system/service.rs). -/
inductive ServiceExpectedStatus
  | Active
  | Inactive
deriving Repr, DecidableEq

/-- ServiceExpectedAutoStart (src/state/attribute/system/service.rs). -/
inductive ServiceExpectedAutoStart
  | Enabled
  | Disabled
deriving Repr, DecidableEq

/-- ServiceBlockExpectedState (src/state/attribute/system/service.rs). -/
structure ServiceBlockExpectedState where
  name : String
  current_status : Option ServiceExpectedStatus
  auto_start : Option ServiceExpectedAutoStart
  exists_ : Option Bool
deriving Repr, DecidableEq

/-- CommandBlockExpectedState (src/state/attribute/shell/command.rs). -/
structure CommandBlockExpectedState where
  cmd : String
deriving Repr, DecidableEq

/-- PingBlockExpectedState (src/state/attribute/utilities/ping.rs): no fields. -/
structure PingBlockExpectedState where
deriving Repr, DecidableEq

/-- DebugBlockExpectedState (src/state/attribute/utilities/debug.rs). -/
structure DebugBlockExpectedState where
  msg : String
deriving Repr, DecidableEq

/-- Loop shared verbatim by the package and service assess implementations: a
remediation list consisting solely of None entries means the attribute is already
in its expected state. -/
def only_none_remediations : List Remediation → Bool
  | [] => true
  | Remediation.None _ :: rest => only_none_remediations rest
  | _ :: _ => false

namespace Apt

/-- is_package_installed (src/state/attribute/package/apt.rs, lines 249-255): run
dpkg -s under Privilege::None; installed iff the exit code is 0.  The stdout is
not inspected. -/
def is_package_installed (env : Env) (package : String) : Bool × Trace :=
  let cmd := "dpkg -s " ++ package
  let test := env.run cmd Privilege.None
  (test.return_code == 0, [HandlerCall.Run cmd Privilege.None])

end Apt

namespace Pacman

/-- is_package_installed (src/state/attribute/package/pacman.rs, lines 235-244):
run the pacman query under Privilege::None; installed iff the exit code is 0. -/
def is_package_installed (env : Env) (package : String) : Bool × Trace :=
  let cmd := "LC_ALL=en_US.UTF-8 pacman -Q -i " ++ package
  let test := env.run cmd Privilege.None
  (test.return_code == 0, [HandlerCall.Run cmd Privilege.None])

end Pacman

namespace YumDnf

/-- is_package_installed (src/state/attribute/package/yumdnf.rs, lines 296-319):
note this probe runs under the attribute privilege, unlike the apt and pacman
probes. -/
def is_package_installed (env : Env) (package_manager : RedHatFlavoredPackageManager)
    (package_name : String) (privilege : Privilege) : Bool × Trace :=
  let cmd := package_manager.command_name ++ " list installed " ++ package_name
  let test := env.run cmd privilege
  (test.return_code == 0, [HandlerCall.Run cmd privilege])

end YumDnf

/-- assess_compliance of AptBlockExpectedState (src/state/attribute/package/apt.rs,
lines 101-181).  This draft still returns the older shape: Ok(None) for a match
and Ok(Some(remediations)) for required work. -/
def AptBlockExpectedState.assess_compliance (self : AptBlockExpectedState)
    (env : Env) (privilege : Privilege) :
    Except Error (Option (List Remediation)) × Trace :=
  if !(env.avail "apt-get" Privilege.None) then
    (Except.error (Error.FailedDryRunEvaluation "APT not working on this host"),
      [HandlerCall.Avail "apt-get" Privilege.None])
  else if !(env.avail "dpkg" Privilege.None) then
    (Except.error (Error.FailedDryRunEvaluation "APT not working on this host"),
      [HandlerCall.Avail "apt-get" Privilege.None, HandlerCall.Avail "dpkg" Privilege.None])
  else
    let t0 : Trace :=
      [HandlerCall.Avail "apt-get" Privilege.None, HandlerCall.Avail "dpkg" Privilege.None]
    let upgrade_rems : List Remediation :=
      if self.upgrade == some true then
        [Remediation.Apt ⟨AptModuleInternalApiCall.Upgrade, privilege⟩]
      else []
    match self.state with
    | Option.none =>
        let remediations := upgrade_rems
        (Except.ok (if only_none_remediations remediations then Option.none
            else some remediations), t0)
    | some st =>
      match self.package with
      | Option.none => (Except.error (panic_err "called unwrap on a None package"), t0)
      | some pkg =>
        let probe := Apt.is_package_installed env pkg
        let state_rem : Remediation :=
          match st with
          | PackageExpectedState.Present =>
            if probe.1 then Remediation.None (pkg ++ " already present")
            else Remediation.Apt ⟨AptModuleInternalApiCall.Install pkg, privilege⟩
          | PackageExpectedState.Absent =>
            if probe.1 then Remediation.Apt ⟨AptModuleInternalApiCall.Remove pkg, privilege⟩
            else Remediation.None (pkg ++ " already absent")
        let remediations := state_rem :: upgrade_rems
        (Except.ok (if only_none_remediations remediations then Option.none
            else some remediations), t0 ++ probe.2)

/-- assess_compliance of PacmanBlockExpectedState
(src/state/attribute/package/pacman.rs, lines 102-177). -/
def PacmanBlockExpectedState.assess_compliance (self : PacmanBlockExpectedState)
    (env : Env) (privilege : Privilege) :
    Except Error AttributeComplianceAssessment × Trace :=
  if !(env.avail "pacman" Privilege.None) then
    (Except.error (Error.FailedDryRunEvaluation "Pacman not working on this host"),
      [HandlerCall.Avail "pacman" Privilege.None])
  else
    let t0 : Trace := [HandlerCall.Avail "pacman" Privilege.None]
    let upgrade_rems : List Remediation :=
      if self.upgrade == some true then
        [Remediation.Pacman ⟨PacmanModuleInternalApiCall.Upgrade, privilege⟩]
      else []
    match self.state with
    | Option.none =>
        let remediations := upgrade_rems
        (Except.ok (if only_none_remediations remediations then
            AttributeComplianceAssessment.Compliant
          else AttributeComplianceAssessment.NonCompliant remediations), t0)
    | some st =>
      match self.package with
      | Option.none => (Except.error (panic_err "called unwrap on a None package"), t0)
      | some pkg =>
        let probe := Pacman.is_package_installed env pkg
        let state_rem : Remediation :=
          match st with
          | PackageExpectedState.Present =>
            if probe.1 then Remediation.None (pkg ++ " already present")
            else Remediation.Pacman ⟨PacmanModuleInternalApiCall.Install pkg, privilege⟩
          | PackageExpectedState.Absent =>
            if probe.1 then
              Remediation.Pacman ⟨PacmanModuleInternalApiCall.Remove pkg, privilege⟩
            else Remediation.None (pkg ++ " already absent")
        let remediations := state_rem :: upgrade_rems
        (Except.ok (if only_none_remediations remediations then
            AttributeComplianceAssessment.Compliant
          else AttributeComplianceAssessment.NonCompliant remediations), t0 ++ probe.2)

/-- assess_compliance of YumDnfBlockExpectedState
(src/state/attribute/package/yumdnf.rs, lines 103-201).  DNF is preferred over
YUM. -/
def YumDnfBlockExpectedState.assess_compliance (self : YumDnfBlockExpectedState)
    (env : Env) (privilege : Privilege) :
    Except Error AttributeComplianceAssessment × Trace :=
  let dnf_avail := env.avail "dnf" Privilege.None
  let mgr_probe : Except Error (RedHatFlavoredPackageManager × Trace) :=
    if dnf_avail then
      Except.ok (RedHatFlavoredPackageManager.Dnf, [HandlerCall.Avail "dnf" Privilege.None])
    else if env.avail "yum" Privilege.None then
      Except.ok (RedHatFlavoredPackageManager.Yum,
        [HandlerCall.Avail "dnf" Privilege.None, HandlerCall.Avail "yum" Privilege.None])
    else Except.error (Error.FailedDryRunEvaluation "Neither YUM nor DNF work on this host")
  match mgr_probe with
  | Except.error e =>
      (Except.error e,
        [HandlerCall.Avail "dnf" Privilege.None, HandlerCall.Avail "yum" Privilege.None])
  | Except.ok (package_manager, t0) =>
    let upgrade_rems : List Remediation :=
      if self.upgrade == some true then
        [Remediation.YumDnf ⟨YumDnfModuleInternalApiCall.Upgrade, package_manager, privilege⟩]
      else []
    match self.state with
    | Option.none =>
        let remediations := upgrade_rems
        (Except.ok (if only_none_remediations remediations then
            AttributeComplianceAssessment.Compliant
          else AttributeComplianceAssessment.NonCompliant remediations), t0)
    | some st =>
      match self.package with
      | Option.none => (Except.error (panic_err "called unwrap on a None package"), t0)
      | some pkg =>
        let probe := YumDnf.is_package_installed env package_manager pkg privilege
        let state_rem : Remediation :=
          match st with
          | PackageExpectedState.Present =>
            if probe.1 then Remediation.None (pkg ++ " already present")
            else
              Remediation.YumDnf
                ⟨YumDnfModuleInternalApiCall.Install pkg, package_manager, privilege⟩
          | PackageExpectedState.Absent =>
            if probe.1 then
              Remediation.YumDnf
                ⟨YumDnfModuleInternalApiCall.Remove pkg, package_manager, privilege⟩
            else Remediation.None (pkg ++ " already absent")
        let remediations := state_rem :: upgrade_rems
        (Except.ok (if only_none_remediations remediations then
            AttributeComplianceAssessment.Compliant
          else AttributeComplianceAssessment.NonCompliant remediations), t0 ++ probe.2)

/-- service_is_active (src/state/attribute/system/service.rs, lines 320-347): the
probe runs under Privilege::None whatever the attribute privilege is. -/
def service_is_active (env : Env) (service_name : String) (must_exists : Bool) :
    Except String Bool × Trace :=
  let cmd := "systemctl is-active " ++ service_name
  let r := env.run cmd Privilege.None
  let res : Except String Bool :=
    if r.return_code == 0 then Except.ok true
    else if r.return_code == 1 then Except.error "Unit not failed"
    else if r.return_code == 3 then Except.ok false
    else if r.return_code == 4 then
      (if must_exists then Except.error "No such service" else Except.ok false)
    else
      Except.error ("Unknown return code : RC : " ++ toString r.return_code ++
        ", STDOUT : " ++ r.stdout ++ ", STDERR : " ++ r.stderr)
  (res, [HandlerCall.Run cmd Privilege.None])

/-- service_is_enabled (src/state/attribute/system/service.rs, lines 349-378):
also issued under Privilege::None. -/
def service_is_enabled (env : Env) (service_name : String) (must_exists : Bool) :
    Except String Bool × Trace :=
  let cmd := "systemctl is-enabled " ++ service_name
  let r := env.run cmd Privilege.None
  let res : Except String Bool :=
    if r.return_code == 0 then Except.ok true
    else if r.return_code == 1 then Except.ok false
    else if r.return_code == 4 then
      (if must_exists then Except.error "No such service" else Except.ok false)
    else
      Except.error ("Unknown return code : RC : " ++ toString r.return_code ++
        ", STDOUT : " ++ r.stdout ++ ", STDERR : " ++ r.stderr)
  (res, [HandlerCall.Run cmd Privilege.None])

/-- assess_compliance of ServiceBlockExpectedState
(src/state/attribute/system/service.rs, lines 119-252).  The systemctl
availability check runs under the attribute privilege; both probes run under
Privilege::None before the field checks. -/
def ServiceBlockExpectedState.assess_compliance (self : ServiceBlockExpectedState)
    (env : Env) (privilege : Privilege) :
    Except Error AttributeComplianceAssessment × Trace :=
  if !(env.avail "systemctl" privilege) then
    (Except.error (Error.FailedDryRunEvaluation "SYSTEMCTL not available on this host"),
      [HandlerCall.Avail "systemctl" privilege])
  else
    let t0 : Trace := [HandlerCall.Avail "systemctl" privilege]
    let must_exists := self.exists_.getD true
    let active_probe := service_is_active env self.name must_exists
    match active_probe.1 with
    | Except.error e =>
        (Except.error (Error.FailedDryRunEvaluation e), t0 ++ active_probe.2)
    | Except.ok active_state =>
      let enabled_probe := service_is_enabled env self.name must_exists
      match enabled_probe.1 with
      | Except.error e =>
          (Except.error (Error.FailedDryRunEvaluation e),
            t0 ++ active_probe.2 ++ enabled_probe.2)
      | Except.ok enabled_state =>
        let t := t0 ++ active_probe.2 ++ enabled_probe.2
        match self.current_status, self.auto_start with
        | Option.none, Option.none =>
            (Except.error (Error.FailedDryRunEvaluation
                "STATE and ENABLED fields are both empty in provided Task List"), t)
        | _, _ =>
          if self.exists_ == some false then
            if self.current_status == some ServiceExpectedStatus.Active then
              (Except.error (Error.IncoherentExpectedState
                  "Service cannot be both active and non-existing."), t)
            else if self.auto_start == some ServiceExpectedAutoStart.Enabled then
              (Except.error (Error.IncoherentExpectedState
                  "Service cannot be both enabled and non-existing."), t)
            else
              -- the exists=false arm pushes no remediation at all
              (Except.ok (if only_none_remediations [] then
                  AttributeComplianceAssessment.Compliant
                else AttributeComplianceAssessment.NonCompliant []), t)
          else
            let status_rems : List Remediation :=
              match self.current_status with
              | some ServiceExpectedStatus.Active =>
                if active_state then [Remediation.None (self.name ++ " already Active")]
                else
                  [Remediation.Service
                    ⟨ServiceModuleInternalApiCall.Start self.name, privilege⟩]
              | some ServiceExpectedStatus.Inactive =>
                if active_state then
                  [Remediation.Service
                    ⟨ServiceModuleInternalApiCall.Stop self.name, privilege⟩]
                else [Remediation.None (self.name ++ " already Inactive")]
              | Option.none => []
            let auto_rems : List Remediation :=
              match self.auto_start with
              | some ServiceExpectedAutoStart.Enabled =>
                if enabled_state then [Remediation.None (self.name ++ " already enabled")]
                else
                  [Remediation.Service
                    ⟨ServiceModuleInternalApiCall.Enable self.name, privilege⟩]
              | some ServiceExpectedAutoStart.Disabled =>
                if enabled_state then
                  [Remediation.Service
                    ⟨ServiceModuleInternalApiCall.Disable self.name, privilege⟩]
                else [Remediation.None (self.name ++ " already disabled")]
              | Option.none => []
            let remediations := status_rems ++ auto_rems
            (Except.ok (if only_none_remediations remediations then
                AttributeComplianceAssessment.Compliant
              else AttributeComplianceAssessment.NonCompliant remediations), t)

/-- assess_compliance of CommandBlockExpectedState
(src/state/attribute/shell/command.rs, lines 22-38): unconditionally one Command
remediation, no host probe at all. -/
def CommandBlockExpectedState.assess_compliance (self : CommandBlockExpectedState)
    (_env : Env) (privilege : Privilege) :
    Except Error AttributeComplianceAssessment × Trace :=
  (Except.ok (AttributeComplianceAssessment.NonCompliant
      [Remediation.Command ⟨self.cmd, privilege⟩]), [])

/-- assess_compliance of PingBlockExpectedState
(src/state/attribute/utilities/ping.rs): run id under the attribute privilege;
compliant iff exit 0, otherwise the host is unreachable. -/
def PingBlockExpectedState.assess_compliance (_self : PingBlockExpectedState)
    (env : Env) (privilege : Privilege) :
    Except Error AttributeComplianceAssessment × Trace :=
  let cmd_result := env.run "id" privilege
  if cmd_result.return_code == 0 then
    (Except.ok AttributeComplianceAssessment.Compliant, [HandlerCall.Run "id" privilege])
  else
    (Except.error (Error.FailedDryRunEvaluation "Host unreachable"),
      [HandlerCall.Run "id" privilege])

/-- assess_compliance of DebugBlockExpectedState
(src/state/attribute/utilities/debug.rs): one None remediation carrying the
message, inside a NonCompliant result. -/
def DebugBlockExpectedState.assess_compliance (self : DebugBlockExpectedState)
    (_env : Env) (_privilege : Privilege) :
    Except Error AttributeComplianceAssessment × Trace :=
  (Except.ok (AttributeComplianceAssessment.NonCompliant
      [Remediation.None self.msg]), [])

/-- Body of the Present arm of the lineinfile assessment after the wc probe and
the position precheck (src/state/attribute/utilities/lineinfile.rs, lines 125-245
and 269-275). -/
def LineInFileBlockExpectedState.assess_present (self : LineInFileBlockExpectedState)
    (env : Env) (privilege : Privilege) (t : Trace) (filenumberoflines : Nat) :
    Except Error AttributeComplianceAssessment × Trace :=
  match self.line with
  | Option.none => (Except.error (panic_err "called unwrap on a None line"), t)
  | some line =>
    let probe := is_line_present env line self.filepath privilege
    match probe.1 with
    | Except.error e => (Except.error e, t ++ probe.2)
    | Except.ok file_actual_compliance =>
      let add (pos : LineExpectedPosition) : Remediation :=
        Remediation.LineInFile
          ⟨self.filepath, line, LineInFileModuleInternalApiCall.Add pos, privilege⟩
      let remediation : Remediation :=
        match file_actual_compliance with
        | some actual_line_numbers =>
          match self.position with
          | some LineExpectedPosition.Top =>
            if actual_line_numbers.contains 1 then
              Remediation.None "Line already present at expected place"
            else add LineExpectedPosition.Top
          | some LineExpectedPosition.Bottom =>
            if actual_line_numbers.contains filenumberoflines then
              Remediation.None "Line already present at expected place"
            else add LineExpectedPosition.Bottom
          | some (LineExpectedPosition.SpecificLineNumber specific_line_number) =>
            if actual_line_numbers.contains specific_line_number then
              Remediation.None "Line already present at expected place"
            else add (LineExpectedPosition.SpecificLineNumber specific_line_number)
          | some LineExpectedPosition.Anywhere =>
            if actual_line_numbers.length != 0 then
              Remediation.None "Line already present in the file"
            else add LineExpectedPosition.Bottom
          | Option.none =>
            Remediation.None ("Line already present " ++ toString actual_line_numbers)
        | Option.none =>
          match self.position with
          | some expected_position => add expected_position
          | Option.none => add LineExpectedPosition.Bottom
      match remediation with
      | Remediation.None _ =>
          (Except.ok AttributeComplianceAssessment.Compliant, t ++ probe.2)
      | r => (Except.ok (AttributeComplianceAssessment.NonCompliant [r]), t ++ probe.2)

/-- assess_compliance of LineInFileBlockExpectedState
(src/state/attribute/utilities/lineinfile.rs, lines 73-277). -/
def LineInFileBlockExpectedState.assess_compliance
    (self : LineInFileBlockExpectedState) (env : Env) (privilege : Privilege) :
    Except Error AttributeComplianceAssessment × Trace :=
  if !(env.avail "sed" privilege) then
    (Except.error (Error.FailedDryRunEvaluation "Sed command not available on this host"),
      [HandlerCall.Avail "sed" privilege])
  else
    let t0 : Trace := [HandlerCall.Avail "sed" privilege]
    let test_cmd := "test -f " ++ self.filepath
    let file_exists_check := env.run test_cmd privilege
    let t1 := t0 ++ [HandlerCall.Run test_cmd privilege]
    if file_exists_check.return_code != 0 then
      (Except.error (Error.FailedDryRunEvaluation
          (self.filepath ++ " not found or not a regular file")), t1)
    else
      match self.state with
      | LineExpectedState.Present =>
        let wc_cmd := "wc -l " ++ self.filepath ++ " | cut -f 1 -d \x27 \x27"
        let wc_result := env.run wc_cmd privilege
        let t2 := t1 ++ [HandlerCall.Run wc_cmd privilege]
        match parse_u64 (rust_trim wc_result.stdout) with
        | Option.none =>
            (Except.error (panic_err "failed to parse the file line count"), t2)
        | some filenumberoflines =>
          match self.position with
          | some (LineExpectedPosition.SpecificLineNumber expected_line_number) =>
            if expected_line_number > filenumberoflines then
              (Except.error (Error.FailedDryRunEvaluation
                  "Position value out of range (use \"bottom\" instead)"), t2)
            else
              LineInFileBlockExpectedState.assess_present self env privilege t2
                filenumberoflines
          | _ => LineInFileBlockExpectedState.assess_present self env privilege t2
              filenumberoflines
      | LineExpectedState.Absent =>
        match self.line with
        | Option.none => (Except.error (panic_err "called unwrap on a None line"), t1)
        | some line =>
          let probe := is_line_present env line self.filepath privilege
          match probe.1 with
          | Except.error e => (Except.error e, t1 ++ probe.2)
          | Except.ok (some line_numbers) =>
            let r := Remediation.LineInFile
              ⟨self.filepath, line, LineInFileModuleInternalApiCall.Delete line_numbers,
                privilege⟩
            (Except.ok (AttributeComplianceAssessment.NonCompliant [r]), t1 ++ probe.2)
          | Except.ok Option.none =>
            -- a lone None remediation means Compliant
            (Except.ok AttributeComplianceAssessment.Compliant, t1 ++ probe.2)

/-- AttributeDetail (src/state/attribute/mod.rs): tagged variant over the attribute
catalog. -/
inductive AttributeDetail
  | Apt (s : AptBlockExpectedState)
  | YumDnf (s : YumDnfBlockExpectedState)
  | Pacman (s : PacmanBlockExpectedState)
  | LineInFile (s : LineInFileBlockExpectedState)
  | Debug (s : DebugBlockExpectedState)
  | Ping (s : PingBlockExpectedState)
  | Service (s : ServiceBlockExpectedState)
  | Command (s : CommandBlockExpectedState)
deriving Repr, DecidableEq

/-- Attribute (src/state/attribute/mod.rs): a detail plus its required privilege. -/
structure Attribute where
  privilege : Privilege
  detail : AttributeDetail
deriving Repr, DecidableEq

/-- assess dispatch of AttributeDetail (src/state/attribute/mod.rs, lines 81-112).
The apt draft still returns the older Option shape; the engine reads Some as
NonCompliant and None as Compliant, the reading its own final loop spells out. -/
def AttributeDetail.assess (d : AttributeDetail) (env : Env) (privilege : Privilege) :
    Except Error AttributeComplianceAssessment × Trace :=
  match d with
  | AttributeDetail.Apt s =>
    match s.assess_compliance env privilege with
    | (Except.error e, t) => (Except.error e, t)
    | (Except.ok Option.none, t) => (Except.ok AttributeComplianceAssessment.Compliant, t)
    | (Except.ok (some l), t) =>
        (Except.ok (AttributeComplianceAssessment.NonCompliant l), t)
  | AttributeDetail.YumDnf s => s.assess_compliance env privilege
  | AttributeDetail.Pacman s => s.assess_compliance env privilege
  | AttributeDetail.LineInFile s => s.assess_compliance env privilege
  | AttributeDetail.Debug s => s.assess_compliance env privilege
  | AttributeDetail.Ping s => s.assess_compliance env privilege
  | AttributeDetail.Service s => s.assess_compliance env privilege
  | AttributeDetail.Command s => s.assess_compliance env privilege

/-- assess of Attribute (src/state/attribute/mod.rs, lines 45-50). -/
def Attribute.assess (a : Attribute) (env : Env) :
    Except Error AttributeComplianceAssessment × Trace :=
  a.detail.assess env a.privilege

/-- reach_compliance of Remediation (src/state/attribute/mod.rs, lines 249-270):
a None remediation is rejected as an unexpected internal state; a concrete one
has its call invoked. -/
def Remediation.reach_compliance (r : Remediation) (env : Env) :
    Except Error InternalApiCallOutcome × Trace :=
  match r with
  | Remediation.None _ =>
      (Except.error (Error.InternalLogicError "Unexpected remediation"), [])
  | Remediation.Pacman api_call => api_call.call env
  | Remediation.Apt api_call => api_call.call env
  | Remediation.YumDnf api_call => api_call.call env
  | Remediation.LineInFile api_call => api_call.call env
  | Remediation.Debug api_call => api_call.call env
  | Remediation.Ping api_call => api_call.call env
  | Remediation.Service api_call => api_call.call env
  | Remediation.Command api_call => api_call.call env

/-- Remediation loop of AttributeDetail reach_compliance
(src/state/attribute/mod.rs, lines 129-226): a None entry raises an
InternalLogicError naming its message, a concrete entry is invoked through the
same per-kind call as Remediation reach_compliance; the first Failure outcome
stops the iteration (the returned flag), keeping the prior outcomes and the
failing one. -/
def attr_reach_remediations (env : Env) :
    List Remediation →
      Except Error (List (Remediation × InternalApiCallOutcome) × Bool) × Trace
  | [] => (Except.ok ([], false), [])
  | r :: rest =>
    match r with
    | Remediation.None message =>
        (Except.error (Error.InternalLogicError
            ("Remediation::None(" ++ message ++ ") : get rid of this")), [])
    | _ =>
      match r.reach_compliance env with
      | (Except.error e, t) => (Except.error e, t)
      | (Except.ok outcome, t) =>
        match outcome with
        | InternalApiCallOutcome.Failure d =>
            (Except.ok ([(r, InternalApiCallOutcome.Failure d)], true), t)
        | _ =>
          match attr_reach_remediations env rest with
          | (Except.error e, t2) => (Except.error e, t ++ t2)
          | (Except.ok (results, failed), t2) =>
              (Except.ok ((r, outcome) :: results, failed), t ++ t2)

/-- reach_compliance of AttributeDetail (src/state/attribute/mod.rs, lines
114-233): assess first; Compliant becomes AlreadyCompliant with no details; an
empty NonCompliant list is an internal logic error; otherwise the remediation
loop runs and the attribute ends FailedReachedCompliance or ReachedCompliance. -/
def AttributeDetail.reach_compliance (d : AttributeDetail) (env : Env)
    (privilege : Privilege) : Except Error AttributeComplianceResult × Trace :=
  match d.assess env privilege with
  | (Except.error e, t) => (Except.error e, t)
  | (Except.ok AttributeComplianceAssessment.Compliant, t) =>
      (Except.ok ⟨AttributeComplianceStatus.AlreadyCompliant, Option.none⟩, t)
  | (Except.ok (AttributeComplianceAssessment.NonCompliant remediations), t) =>
    if remediations.length == 0 then
      (Except.error (Error.InternalLogicError
          "This should not have been called as the ManagedHost is already compliant"), t)
    else
      match attr_reach_remediations env remediations with
      | (Except.error e, t2) => (Except.error e, t ++ t2)
      | (Except.ok (actions_taken, failed), t2) =>
        if failed then
          (Except.ok ⟨AttributeComplianceStatus.FailedReachedCompliance,
              some actions_taken⟩, t ++ t2)
        else
          (Except.ok ⟨AttributeComplianceStatus.ReachedCompliance,
              some actions_taken⟩, t ++ t2)

/-- Inner remediation loop of ManagedHost reach_compliance (src/managed_host.rs,
lines 177-197): each remediation goes through Remediation reach_compliance; a
Failure outcome is recorded and breaks the loop (the returned flag). -/
def managed_reach_remediations (env : Env) :
    List Remediation →
      Except Error (List (Remediation × InternalApiCallOutcome) × Bool) × Trace
  | [] => (Except.ok ([], false), [])
  | r :: rest =>
    match r.reach_compliance env with
    | (Except.error e, t) => (Except.error e, t)
    | (Except.ok outcome, t) =>
      match outcome with
      | InternalApiCallOutcome.Failure d =>
          (Except.ok ([(r, InternalApiCallOutcome.Failure d)], true), t)
      | _ =>
        match managed_reach_remediations env rest with
        | (Except.error e, t2) => (Except.error e, t ++ t2)
        | (Except.ok (results, failed), t2) =>
            (Except.ok ((r, outcome) :: results, failed), t ++ t2)

/-- Attribute loop of ManagedHost reach_compliance (src/managed_host.rs, lines
162-222): re-assess each attribute; a Compliant attribute is recorded as
AlreadyCompliant; a NonCompliant one is remediated, and a failure marks the
attribute FailedReachedCompliance and breaks the loop.  The host status starts
AlreadyCompliant, becomes ReachedCompliance once work is done, and ends
FailedReachedCompliance if an attribute failed. -/
def managed_reach_attrs (env : Env) :
    List Attribute →
      Except Error (HostComplianceStatus × List (Attribute × AttributeComplianceResult))
        × Trace
  | [] => (Except.ok (HostComplianceStatus.AlreadyCompliant, []), [])
  | a :: rest =>
    match a.assess env with
    | (Except.error e, t) => (Except.error e, t)
    | (Except.ok AttributeComplianceAssessment.Compliant, t) =>
      match managed_reach_attrs env rest with
      | (Except.error e, t2) => (Except.error e, t ++ t2)
      | (Except.ok (st, acts), t2) =>
          (Except.ok (st,
            (a, (⟨AttributeComplianceStatus.AlreadyCompliant, Option.none⟩ :
              AttributeComplianceResult)) :: acts), t ++ t2)
    | (Except.ok (AttributeComplianceAssessment.NonCompliant remediations), t) =>
      match managed_reach_remediations env remediations with
      | (Except.error e, t2) => (Except.error e, t ++ t2)
      | (Except.ok (attribute_results, failed), t2) =>
        if failed then
          (Except.ok (HostComplianceStatus.FailedReachedCompliance,
            [(a, (⟨AttributeComplianceStatus.FailedReachedCompliance,
              some attribute_results⟩ : AttributeComplianceResult))]), t ++ t2)
        else
          match managed_reach_attrs env rest with
          | (Except.error e, t3) => (Except.error e, t ++ t2 ++ t3)
          | (Except.ok (st, acts), t3) =>
            let st2 :=
              match st with
              | HostComplianceStatus.AlreadyCompliant =>
                  HostComplianceStatus.ReachedCompliance
              | x => x
            (Except.ok (st2,
              (a, (⟨AttributeComplianceStatus.ReachedCompliance,
                some attribute_results⟩ : AttributeComplianceResult)) :: acts),
              t ++ t2 ++ t3)

/-- HostComplianceResult (modelled from the spec, sections 3 and 4.3: the
host-level result type carrying the final status and the per-attribute results is
not under src/; ManagedHost reach_compliance builds it from final_host_status and
actions_taken). -/
structure HostComplianceResult where
  status : HostComplianceStatus
  actions_taken : List (Attribute × AttributeComplianceResult)
deriving Repr, DecidableEq

/-- reach_compliance of ManagedHost (src/managed_host.rs, lines 154-223): require
a connected handler, then run the attribute loop. -/
def ManagedHost.reach_compliance (env : Env) (attributes : List Attribute) :
    Except Error HostComplianceResult × Trace :=
  if !env.connected then (Except.error Error.NotConnectedToHost, [])
  else
    match managed_reach_attrs env attributes with
    | (Except.error e, t) => (Except.error e, t)
    | (Except.ok (st, acts), t) => (Except.ok ⟨st, acts⟩, t)

/-- Privilege of the older connection draft (modelled from the spec, section 3:
src/connection/specification.rs is not under src/; the variants are those matched
by src/connection/hosthandler.rs, lines 128-151). -/
inductive OldPrivilege
  | Usual
  | WithSudo
  | WithSudoAsUser (username : String)
  | WithSudoRs
  | WithSudoRsAsUser (username : String)
deriving Repr, DecidableEq

/-- CmdResult of the older connection draft (modelled from the spec, section 2:
src/result/cmd.rs is not under src/; the fields are those used by
src/modules/packages/apt.rs). -/
structure CmdResult where
  rc : Int
  stdout : String
deriving Repr, DecidableEq

/-- Handler model for the older ConnectionHandler draft (runCmd stands for the run_cmd method, a total
deterministic function). -/
structure ModulesEnv where
  runCmd : String → OldPrivilege → CmdResult

namespace ModulesApt

/-- is_package_installed of the module draft (src/modules/packages/apt.rs, lines
286-298): run dpkg -s under Privilege::Usual; installed iff exit 0 and the stdout
contains Status: install (a Status: deinstall answer and every other exit-0
answer count as not installed). -/
def is_package_installed (henv : ModulesEnv) (package : String) :
    Bool × List (String × OldPrivilege) :=
  let cmd := "dpkg -s " ++ package
  let test := henv.runCmd cmd OldPrivilege.Usual
  let installed :=
    if test.rc == 0 && contains_substring test.stdout "Status: install" then true
    else if test.rc == 0 && contains_substring test.stdout "Status: deinstall" then false
    else false
  (installed, [(cmd, OldPrivilege.Usual)])

/-- apply_moduleblock_change of the module draft, Install arm
(src/modules/packages/apt.rs, lines 198-227): run apt-get update first, then the
noninteractive install, both under the call privilege; only the install outcome
is inspected. -/
def apply_install (henv : ModulesEnv) (package_name : String)
    (privilege : OldPrivilege) : Bool × List (String × OldPrivilege) :=
  let update_cmd := "apt-get update"
  let _update_result := henv.runCmd update_cmd privilege
  let cmd := "DEBIAN_FRONTEND=noninteractive apt-get install -y " ++ package_name
  let cmd_result := henv.runCmd cmd privilege
  (cmd_result.rc == 0, [(update_cmd, privilege), (cmd, privilege)])

end ModulesApt

/-- Final value of the mutable host status of ManagedHost reach_compliance when a
prefix of the attribute list ends in status a and the remainder in status b: the
later loop iterations overwrite the earlier value unless they leave it at its
AlreadyCompliant start. -/
def host_status_comb (a b : HostComplianceStatus) : HostComplianceStatus :=
  match a, b with
  | HostComplianceStatus.AlreadyCompliant, b => b
  | a, HostComplianceStatus.AlreadyCompliant => a
  | _, b => b

/-- Host on which every command exits 0 and every tool is available. -/
def env_every_command_succeeds : Env :=
  { run := fun _ _ => ⟨0, "", ""⟩, avail := fun _ _ => true, connected := true }

/-- Host on which dpkg reports apache2 as removed but not purged: dpkg -s exits 0
with a Status: deinstall answer. -/
def env_dpkg_deinstall : Env :=
  { run := fun cmd _ =>
      if cmd = "dpkg -s apache2" then ⟨0, "Status: deinstall ok config-files", ""⟩
      else ⟨0, "", ""⟩,
    avail := fun _ _ => true, connected := true }

/-- Host on which /etc/hosts is an empty regular file (wc -l reports 0 lines)
and every command exits 0. -/
def env_empty_file : Env :=
  { run := fun cmd _ =>
      if cmd = "wc -l /etc/hosts | cut -f 1 -d \x27 \x27" then ⟨0, "0\n", ""⟩
      else ⟨0, "", ""⟩,
    avail := fun _ _ => true, connected := true }

/-- Host on which /etc/hosts is a one-line file whose single line is the probed
entry, so a Top lineinfile attribute is already compliant. -/
def env_hosts_file : Env :=
  { run := fun cmd _ =>
      if cmd = "wc -l /etc/hosts | cut -f 1 -d \x27 \x27" then ⟨0, "1", ""⟩
      else if cmd = "grep -n -F -w \x27127.0.0.1 foo\x27 /etc/hosts" then
        ⟨0, "1:127.0.0.1 foo", ""⟩
      else ⟨0, "", ""⟩,
    avail := fun _ _ => true, connected := true }

/-- Host on which the boinc package is absent and its pacman install exits 100;
everything else succeeds. -/
def env_pacman_boinc_fails : Env :=
  { run := fun cmd _ =>
      if cmd = "LC_ALL=en_US.UTF-8 pacman -Q -i boinc" then ⟨1, "", ""⟩
      else if cmd = "pacman --noconfirm -S boinc" then ⟨100, "boum", ""⟩
      else ⟨0, "", ""⟩,
    avail := fun _ _ => true, connected := true }

/-- Host on which the apache package is absent and every remediation succeeds. -/
def env_pacman_apache_absent : Env :=
  { run := fun cmd _ =>
      if cmd = "LC_ALL=en_US.UTF-8 pacman -Q -i apache" then ⟨1, "", ""⟩
      else ⟨0, "", ""⟩,
    avail := fun _ _ => true, connected := true }

end Regent

namespace Regent

/-- C1: for every raw command, privilege and identity, the privilege-composition
function emits exactly the command string of the table in spec section 3. -/
theorem final_command_matches_spec_table (cmd : String) (privilege : Privilege)
    (user : WhichUser) :
    final_command cmd privilege user = spec_emitted_command cmd privilege user := by
  cases user <;> cases privilege <;> rfl

/-- C3: the claim says Remediation::None entries are skipped during
reach_compliance.  The code instead aborts: on a host where apache is installed
and an upgrade is requested, assessment produces the mixed list
[None, Upgrade], and reach_compliance fails with an InternalLogicError on the
None entry (whose message even says to get rid of it); the managed-host path
rejects a None remediation the same way.  The upgrade call is never invoked. -/
theorem reach_compliance_errors_on_none_remediation :
    PacmanBlockExpectedState.assess_compliance
        ⟨some PackageExpectedState.Present, some "apache", some true⟩
        env_every_command_succeeds Privilege.WithSudo
      = (Except.ok (AttributeComplianceAssessment.NonCompliant
          [Remediation.None "apache already present",
           Remediation.Pacman ⟨PacmanModuleInternalApiCall.Upgrade, Privilege.WithSudo⟩]),
         [HandlerCall.Avail "pacman" Privilege.None,
          HandlerCall.Run "LC_ALL=en_US.UTF-8 pacman -Q -i apache" Privilege.None])
    ∧ AttributeDetail.reach_compliance
        (AttributeDetail.Pacman ⟨some PackageExpectedState.Present, some "apache", some true⟩)
        env_every_command_succeeds Privilege.WithSudo
      = (Except.error (Error.InternalLogicError
          "Remediation::None(apache already present) : get rid of this"),
         [HandlerCall.Avail "pacman" Privilege.None,
          HandlerCall.Run "LC_ALL=en_US.UTF-8 pacman -Q -i apache" Privilege.None])
    ∧ Remediation.reach_compliance (Remediation.None "apache already present")
        env_every_command_succeeds
      = (Except.error (Error.InternalLogicError "Unexpected remediation"), []) :=
  ⟨rfl, rfl, rfl⟩

/-- C4 counterexample: on a host where dpkg -s apache2 exits 0 with a
Status: deinstall answer, the engine probe judges the package installed even
though the stdout does not contain Status: install — so installed is not
equivalent to (exit 0 and stdout contains Status: install) for this probe. -/
theorem apt_probe_ignores_stdout_counterexample :
    (Apt.is_package_installed env_dpkg_deinstall "apache2").1 = true
    ∧ (env_dpkg_deinstall.run "dpkg -s apache2" Privilege.None).return_code = 0
    ∧ contains_substring
        (env_dpkg_deinstall.run "dpkg -s apache2" Privilege.None).stdout
        "Status: install" = false :=
  ⟨rfl, rfl, by decide⟩

/-- C4 amended: both probes run dpkg -s under their unprivileged mode; the
module-draft probe judges installed iff exit 0 and stdout contains
Status: install, while the compliance-engine probe judges installed iff exit 0,
ignoring stdout. -/
theorem apt_probe_definitions (env : Env) (henv : ModulesEnv) (pkg : String) :
    Apt.is_package_installed env pkg
      = ((env.run ("dpkg -s " ++ pkg) Privilege.None).return_code == 0,
         [HandlerCall.Run ("dpkg -s " ++ pkg) Privilege.None])
    ∧ ModulesApt.is_package_installed henv pkg
      = (((henv.runCmd ("dpkg -s " ++ pkg) OldPrivilege.Usual).rc == 0
            && contains_substring
                (henv.runCmd ("dpkg -s " ++ pkg) OldPrivilege.Usual).stdout
                "Status: install"),
         [("dpkg -s " ++ pkg, OldPrivilege.Usual)]) := by
  refine ⟨rfl, ?_⟩
  unfold ModulesApt.is_package_installed
  cases h : ((henv.runCmd ("dpkg -s " ++ pkg) OldPrivilege.Usual).rc == 0
      && contains_substring (henv.runCmd ("dpkg -s " ++ pkg) OldPrivilege.Usual).stdout
        "Status: install") <;>
    simp [h]

/-- C5 counterexample: executing the engine apt Install remediation for apache2
under WithSudo issues exactly the noninteractive install command; no apt-get
update is run before it. -/
theorem apt_install_runs_no_update_counterexample :
    (AptApiCall.call ⟨AptModuleInternalApiCall.Install "apache2", Privilege.WithSudo⟩
        env_every_command_succeeds).2
      = [HandlerCall.Run "DEBIAN_FRONTEND=noninteractive apt-get install -y apache2"
          Privilege.WithSudo]
    ∧ (AptApiCall.call ⟨AptModuleInternalApiCall.Install "apache2", Privilege.WithSudo⟩
        env_every_command_succeeds).2.contains
        (HandlerCall.Run "apt-get update" Privilege.WithSudo) = false :=
  ⟨rfl, by decide⟩

/-- C5 amended: the engine Install remediation issues only the noninteractive
install command under the attribute privilege, and apt-get update appears only
inside the Upgrade remediation compound command; the archived module draft is
the one that runs apt-get update before installing (which the spec scenario
reflects), and the WithSudo wire form of apt-get update is the scenario string. -/
theorem apt_install_command_composition (p : String) (priv : Privilege) (env : Env)
    (henv : ModulesEnv) (opriv : OldPrivilege) :
    AptApiCall.call ⟨AptModuleInternalApiCall.Install p, priv⟩ env
      = (Except.ok (rc_outcome
            (env.run ("DEBIAN_FRONTEND=noninteractive apt-get install -y " ++ p) priv)),
         [HandlerCall.Run ("DEBIAN_FRONTEND=noninteractive apt-get install -y " ++ p) priv])
    ∧ AptApiCall.call ⟨AptModuleInternalApiCall.Upgrade, priv⟩ env
      = (Except.ok (rc_outcome
            (env.run "apt-get update && DEBIAN_FRONTEND=noninteractive apt-get upgrade -y"
              priv)),
         [HandlerCall.Run
            "apt-get update && DEBIAN_FRONTEND=noninteractive apt-get upgrade -y" priv])
    ∧ (ModulesApt.apply_install henv p opriv).2
      = [("apt-get update", opriv),
         ("DEBIAN_FRONTEND=noninteractive apt-get install -y " ++ p, opriv)]
    ∧ final_command "apt-get update" Privilege.WithSudo WhichUser.CurrentUser
      = "sudo apt-get update 2>&1" :=
  ⟨rfl, rfl, rfl, rfl⟩

/-- C6: the derived Debug output of Credentials (and of WhichUser, which embeds
it) prints the password verbatim — two values differing only in the password
have different, password-revealing outputs — while the hand-written
Ssh2AuthMethod Debug output redacts it, as the spec requires of every
password-carrying structure. -/
theorem credentials_debug_leaks_password :
    Credentials.fmt_debug ⟨"alice", "hunter2"⟩
      ≠ Credentials.fmt_debug ⟨"alice", "swordfish"⟩
    ∧ contains_substring (Credentials.fmt_debug ⟨"alice", "hunter2"⟩) "hunter2" = true
    ∧ WhichUser.fmt_debug (WhichUser.UsernamePassword ⟨"alice", "hunter2"⟩)
      ≠ WhichUser.fmt_debug (WhichUser.UsernamePassword ⟨"alice", "swordfish"⟩)
    ∧ Ssh2AuthMethod.fmt_debug (Ssh2AuthMethod.UsernamePassword ⟨"alice", "hunter2"⟩)
      = Ssh2AuthMethod.fmt_debug (Ssh2AuthMethod.UsernamePassword ⟨"alice", "swordfish"⟩) :=
  ⟨by decide, by decide, by decide, rfl⟩

/-- C8 counterexample: a Command attribute breaks reach-then-assess convergence.
On a host where every command exits 0, reach_compliance of the Command attribute
returns ReachedCompliance, yet an immediately following assess on the very same
host returns NonCompliant again, because Command assessment is unconditional. -/
theorem command_attribute_convergence_counterexample :
    AttributeDetail.reach_compliance (AttributeDetail.Command ⟨"systemctl restart foo"⟩)
        env_every_command_succeeds Privilege.WithSudo
      = (Except.ok ⟨AttributeComplianceStatus.ReachedCompliance,
          some [(Remediation.Command ⟨"systemctl restart foo", Privilege.WithSudo⟩,
            InternalApiCallOutcome.Success)]⟩,
         [HandlerCall.Run "systemctl restart foo" Privilege.WithSudo])
    ∧ (AttributeDetail.assess (AttributeDetail.Command ⟨"systemctl restart foo"⟩)
        env_every_command_succeeds Privilege.WithSudo).1
      = Except.ok (AttributeComplianceAssessment.NonCompliant
          [Remediation.Command ⟨"systemctl restart foo", Privilege.WithSudo⟩])
    ∧ AttributeComplianceAssessment.NonCompliant
          [Remediation.Command ⟨"systemctl restart foo", Privilege.WithSudo⟩]
        ≠ AttributeComplianceAssessment.Compliant :=
  ⟨rfl, rfl, by decide⟩

/-- C10 counterexample: the attribute privilege is not applied only to
remediation commands.  Assessing a lineinfile attribute under WithSudo issues
the read-only probe test -f through run_command under WithSudo, and assessing a
service attribute issues its systemctl availability check under WithSudo — both
during assessment, neither a remediation. -/
theorem assessment_probes_use_attribute_privilege_counterexample :
    ((LineInFileBlockExpectedState.assess_compliance
        ⟨"/etc/hosts", some "127.0.0.1 foo", LineExpectedState.Present,
          some LineExpectedPosition.Top⟩
        env_hosts_file Privilege.WithSudo).2).contains
      (HandlerCall.Run "test -f /etc/hosts" Privilege.WithSudo) = true
    ∧ ((ServiceBlockExpectedState.assess_compliance
        ⟨"x", some ServiceExpectedStatus.Active, Option.none, Option.none⟩
        env_every_command_succeeds Privilege.WithSudo).2).contains
      (HandlerCall.Avail "systemctl" Privilege.WithSudo) = true
    ∧ Privilege.WithSudo ≠ Privilege.None :=
  ⟨by decide, by decide, by decide⟩

/-- C10 amended: the four probes the claim names do run under Privilege::None
regardless of the attribute privilege — the apt dpkg -s probe, every handler
call of the pacman assessment (its availability check and its query probe), and
the two systemctl state probes of the service assessment. -/
theorem read_only_probes_run_unprivileged :
    (∀ (env : Env) (pkg : String),
      (Apt.is_package_installed env pkg).2
        = [HandlerCall.Run ("dpkg -s " ++ pkg) Privilege.None])
    ∧ (∀ (b : PacmanBlockExpectedState) (env : Env) (priv : Privilege),
      ((b.assess_compliance env priv).2).all
        (fun c => c.priv == Privilege.None) = true)
    ∧ (∀ (env : Env) (n : String) (m : Bool),
      (service_is_active env n m).2
        = [HandlerCall.Run ("systemctl is-active " ++ n) Privilege.None])
    ∧ (∀ (env : Env) (n : String) (m : Bool),
      (service_is_enabled env n m).2
        = [HandlerCall.Run ("systemctl is-enabled " ++ n) Privilege.None]) := by
  refine ⟨fun env pkg => rfl, ?_, fun env n m => rfl, fun env n m => rfl⟩
  intro b env priv
  obtain ⟨st, pk, up⟩ := b
  unfold PacmanBlockExpectedState.assess_compliance
  split
  · rfl
  · cases st with
    | none => rfl
    | some s =>
      cases pk with
      | none => rfl
      | some p => rfl

/-- C9: on a file whose wc -l probe reports 0 lines, an Add remediation at Top,
Bottom, Anywhere or specific line 1 executes exactly the echo append command,
while an Add at any other specific line number returns the out-of-range Failure
and runs no modifying command (only the wc probe appears in the trace). -/
theorem lineinfile_add_empty_file (env : Env) (line path : String) (priv : Privilege) :
    rust_trim (env.run ("wc -l " ++ path ++ " | cut -f 1 -d \x27 \x27") priv).stdout = "0" →
    ((∀ pos : LineExpectedPosition,
        (pos = LineExpectedPosition.Top ∨ pos = LineExpectedPosition.Bottom ∨
          pos = LineExpectedPosition.Anywhere ∨
          pos = LineExpectedPosition.SpecificLineNumber 1) →
        LineInFileApiCall.call ⟨path, line, LineInFileModuleInternalApiCall.Add pos, priv⟩ env
          = (Except.ok (line_add_outcome
                (env.run ("echo \x27" ++ line ++ "\x27 >> " ++ path) priv)),
             [HandlerCall.Run ("wc -l " ++ path ++ " | cut -f 1 -d \x27 \x27") priv,
              HandlerCall.Run ("echo \x27" ++ line ++ "\x27 >> " ++ path) priv]))
      ∧ (∀ m : Nat, m ≠ 1 →
        LineInFileApiCall.call
            ⟨path, line,
              LineInFileModuleInternalApiCall.Add (LineExpectedPosition.SpecificLineNumber m),
              priv⟩ env
          = (Except.ok (InternalApiCallOutcome.Failure
              "Position value out of range (use \"bottom\" instead)"),
             [HandlerCall.Run ("wc -l " ++ path ++ " | cut -f 1 -d \x27 \x27") priv]))) := by
  intro h0
  have hp : parse_u64 (rust_trim
      (env.run ("wc -l " ++ path ++ " | cut -f 1 -d \x27 \x27") priv).stdout) = some 0 := by
    rw [h0]
    rfl
  constructor
  · rintro pos (rfl | rfl | rfl | rfl) <;> simp only [LineInFileApiCall.call, hp] <;> rfl
  · intro m hm
    match m, hm with
    | 0, _ =>
      simp only [LineInFileApiCall.call, hp]
      rfl
    | Nat.succ (Nat.succ j), _ =>
      simp only [LineInFileApiCall.call, hp]
      rfl

/-- Witness for C9 at a concrete empty /etc/hosts: the Bottom add appends via
echo and succeeds; the add at line 3 fails with the out-of-range message after
only the wc probe. -/
theorem lineinfile_add_empty_file_witness :
    LineInFileApiCall.call ⟨"/etc/hosts", "127.0.0.1 foo",
        LineInFileModuleInternalApiCall.Add LineExpectedPosition.Bottom, Privilege.WithSudo⟩
        env_empty_file
      = (Except.ok InternalApiCallOutcome.Success,
         [HandlerCall.Run "wc -l /etc/hosts | cut -f 1 -d \x27 \x27" Privilege.WithSudo,
          HandlerCall.Run "echo \x27127.0.0.1 foo\x27 >> /etc/hosts" Privilege.WithSudo])
    ∧ LineInFileApiCall.call ⟨"/etc/hosts", "127.0.0.1 foo",
        LineInFileModuleInternalApiCall.Add (LineExpectedPosition.SpecificLineNumber 3),
        Privilege.WithSudo⟩ env_empty_file
      = (Except.ok (InternalApiCallOutcome.Failure
          "Position value out of range (use \"bottom\" instead)"),
         [HandlerCall.Run "wc -l /etc/hosts | cut -f 1 -d \x27 \x27" Privilege.WithSudo]) := by
  constructor
  · have h := (lineinfile_add_empty_file env_empty_file "127.0.0.1 foo" "/etc/hosts"
      Privilege.WithSudo rfl).1 LineExpectedPosition.Bottom (Or.inr (Or.inl rfl))
    exact h.trans (by rfl)
  · have h := (lineinfile_add_empty_file env_empty_file "127.0.0.1 foo" "/etc/hosts"
      Privilege.WithSudo rfl).2 3 (by decide)
    exact h.trans (by rfl)

/-- C8 amended: reach-then-assess convergence holds for a state-probing attribute
under the exclusive-access assumption — after reach_compliance of a pacman
package attribute (no upgrade sub-goal) returns ReachedCompliance, an assess
against a host whose pacman probe now reports the remediated state returns
Compliant — while a Command attribute can never converge, its assessment being
unconditionally NonCompliant. -/
theorem reach_then_assess_convergence :
    (∀ (p : String) (st : PackageExpectedState) (priv : Privilege) (env env2 : Env)
        (r : AttributeComplianceResult) (t : Trace),
      AttributeDetail.reach_compliance
          (AttributeDetail.Pacman ⟨some st, some p, Option.none⟩) env priv
        = (Except.ok r, t) →
      r.status = AttributeComplianceStatus.ReachedCompliance →
      env2.avail "pacman" Privilege.None = true →
      (st = PackageExpectedState.Present →
        (env2.run ("LC_ALL=en_US.UTF-8 pacman -Q -i " ++ p) Privilege.None).return_code = 0) →
      (st = PackageExpectedState.Absent →
        (env2.run ("LC_ALL=en_US.UTF-8 pacman -Q -i " ++ p) Privilege.None).return_code ≠ 0) →
      (AttributeDetail.assess (AttributeDetail.Pacman ⟨some st, some p, Option.none⟩)
          env2 priv).1
        = Except.ok AttributeComplianceAssessment.Compliant)
    ∧ (∀ (c : String) (priv : Privilege) (env : Env),
      (AttributeDetail.assess (AttributeDetail.Command ⟨c⟩) env priv).1
        = Except.ok (AttributeComplianceAssessment.NonCompliant
            [Remediation.Command ⟨c, priv⟩])) := by
  constructor
  · intro p st priv env env2 r t hreach hstat havail hpres habs
    unfold AttributeDetail.assess PacmanBlockExpectedState.assess_compliance
    cases st with
    | Present =>
      have h0 : ((env2.run ("LC_ALL=en_US.UTF-8 pacman -Q -i " ++ p)
          Privilege.None).return_code == 0) = true := by
        simp [hpres rfl]
      simp [havail, Pacman.is_package_installed, h0, only_none_remediations]
    | Absent =>
      have h0 : ((env2.run ("LC_ALL=en_US.UTF-8 pacman -Q -i " ++ p)
          Privilege.None).return_code == 0) = false := by
        simp [habs rfl]
      simp [havail, Pacman.is_package_installed, h0, only_none_remediations]
  · intro c priv env
    rfl

/-- Witness for C8 amended: installing the absent apache package on one host
state (reach returns ReachedCompliance there), then assessing against the host
state on which the probe reports it installed, yields Compliant. -/
theorem reach_then_assess_convergence_witness :
    (AttributeDetail.assess
        (AttributeDetail.Pacman ⟨some PackageExpectedState.Present, some "apache",
          Option.none⟩)
        env_every_command_succeeds Privilege.WithSudo).1
      = Except.ok AttributeComplianceAssessment.Compliant :=
  reach_then_assess_convergence.1 "apache" PackageExpectedState.Present
    Privilege.WithSudo env_pacman_apache_absent env_every_command_succeeds
    ⟨AttributeComplianceStatus.ReachedCompliance,
      some [(Remediation.Pacman ⟨PacmanModuleInternalApiCall.Install "apache",
        Privilege.WithSudo⟩, InternalApiCallOutcome.Success)]⟩
    [HandlerCall.Avail "pacman" Privilege.None,
     HandlerCall.Run "LC_ALL=en_US.UTF-8 pacman -Q -i apache" Privilege.None,
     HandlerCall.Run "pacman --noconfirm -S apache" Privilege.WithSudo]
    rfl rfl rfl (fun _ => rfl) (fun h => PackageExpectedState.noConfusion h)

end Regent


namespace Regent
/-- Helper: a remediation list on which the only-None loop answers false is
non-empty, because the loop answers true on the empty list. -/
theorem only_none_false_ne_nil {rems : List Remediation}
    (h : only_none_remediations rems = false) : rems ≠ [] := by
  intro he
  subst he
  simp [only_none_remediations] at h

/-- Helper: the shared final step of the package and service assessments can
only produce a NonCompliant with a non-empty list. -/
theorem assess_tail_nonempty {rems l : List Remediation} {tr t : Trace}
    (h : ((Except.ok (if only_none_remediations rems then
        AttributeComplianceAssessment.Compliant
      else AttributeComplianceAssessment.NonCompliant rems) :
        Except Error AttributeComplianceAssessment), tr)
      = (Except.ok (AttributeComplianceAssessment.NonCompliant l), t)) : l ≠ [] := by
  split at h
  · simp at h
  · rename_i hc
    simp at h
    obtain ⟨h1, h2⟩ := h
    subst h1
    exact only_none_false_ne_nil (eq_false_of_ne_true hc)

/-- Helper for C7, service kind. -/
theorem service_assess_noncompliant_nonempty (s : ServiceBlockExpectedState)
    (env : Env) (priv : Privilege) (l : List Remediation) (t : Trace)
    (h : s.assess_compliance env priv
      = (Except.ok (AttributeComplianceAssessment.NonCompliant l), t)) : l ≠ [] := by
  obtain ⟨nm, cs, as2, ex⟩ := s
  unfold ServiceBlockExpectedState.assess_compliance at h
  cases havail : env.avail "systemctl" priv <;> rw [havail] at h
  · simp at h
  · simp only [Bool.not_true, Bool.false_eq_true, if_false] at h
    rcases hex : ex with _ | b
    · subst hex
      rcases hact : (service_is_active env nm (Option.none.getD true)).1 with e | astate
          <;> rw [hact] at h
      · simp at h
      · rcases hen : (service_is_enabled env nm (Option.none.getD true)).1 with e | estate
            <;> rw [hen] at h
        · simp at h
        · rcases cs with _ | c <;> rcases as2 with _ | a
          · simp at h
          · exact assess_tail_nonempty h
          · exact assess_tail_nonempty h
          · exact assess_tail_nonempty h
    · subst hex
      rcases hact : (service_is_active env nm ((some b).getD true)).1 with e | astate
          <;> rw [hact] at h
      · simp at h
      · rcases hen : (service_is_enabled env nm ((some b).getD true)).1 with e | estate
            <;> rw [hen] at h
        · simp at h
        · cases b <;> rcases cs with _ | c <;> rcases as2 with _ | a <;>
            (try rcases c with _ | _) <;> (try rcases a with _ | _) <;>
            first
            | exact assess_tail_nonempty h
            | exact absurd h (by simp)


/-- Helper for C7, lineinfile kind, Present arm. -/
theorem lineinfile_present_noncompliant_nonempty (s : LineInFileBlockExpectedState)
    (env : Env) (priv : Privilege) (tr : Trace) (n : Nat) (l : List Remediation)
    (t : Trace)
    (h : LineInFileBlockExpectedState.assess_present s env priv tr n
      = (Except.ok (AttributeComplianceAssessment.NonCompliant l), t)) : l ≠ [] := by
  obtain ⟨fp, ln, st, pos⟩ := s
  unfold LineInFileBlockExpectedState.assess_present at h
  rcases ln with _ | line
  · simp at h
  · simp only [] at h
    rcases hp : (is_line_present env line fp priv).1 with e | fac <;> rw [hp] at h
    · simp at h
    · rcases fac with _ | nums
      · rcases pos with _ | p <;>
          (simp at h; obtain ⟨h1, h2⟩ := h; subst h1; simp)
      · rcases pos with _ | p
        · simp at h
        · rcases p with _ | _ | _ | k
          · simp only [] at h
            cases hc : nums.contains 1 <;> rw [hc] at h
            · simp at h
              obtain ⟨h1, h2⟩ := h
              subst h1
              simp
            · exact absurd h (by simp)
          · simp only [] at h
            cases hc : nums.contains n <;> rw [hc] at h
            · simp at h
              obtain ⟨h1, h2⟩ := h
              subst h1
              simp
            · exact absurd h (by simp)
          · simp only [] at h
            cases hc : nums.length != 0 <;> rw [hc] at h
            · simp at h
              obtain ⟨h1, h2⟩ := h
              subst h1
              simp
            · exact absurd h (by simp)
          · simp only [] at h
            cases hc : nums.contains k <;> rw [hc] at h
            · simp at h
              obtain ⟨h1, h2⟩ := h
              subst h1
              simp
            · exact absurd h (by simp)

/-- Helper for C7, lineinfile kind. -/
theorem lineinfile_assess_noncompliant_nonempty (s : LineInFileBlockExpectedState)
    (env : Env) (priv : Privilege) (l : List Remediation) (t : Trace)
    (h : s.assess_compliance env priv
      = (Except.ok (AttributeComplianceAssessment.NonCompliant l), t)) : l ≠ [] := by
  obtain ⟨fp, ln, st, pos⟩ := s
  unfold LineInFileBlockExpectedState.assess_compliance at h
  cases hsed : env.avail "sed" priv <;> rw [hsed] at h
  · simp at h
  · simp only [Bool.not_true, Bool.false_eq_true, if_false] at h
    cases hrc : ((env.run ("test -f " ++ fp) priv).return_code != 0) <;> rw [hrc] at h
    · simp only [Bool.false_eq_true, if_false] at h
      cases st
      · -- Present
        rcases hn : parse_u64 (rust_trim
            (env.run ("wc -l " ++ fp ++ " | cut -f 1 -d \x27 \x27") priv).stdout)
            with _ | n <;> rw [hn] at h
        · simp at h
        · rcases pos with _ | p
          · exact lineinfile_present_noncompliant_nonempty _ _ _ _ _ _ _ h
          · rcases p with _ | _ | _ | k
            · exact lineinfile_present_noncompliant_nonempty _ _ _ _ _ _ _ h
            · exact lineinfile_present_noncompliant_nonempty _ _ _ _ _ _ _ h
            · exact lineinfile_present_noncompliant_nonempty _ _ _ _ _ _ _ h
            · by_cases hk : k > n
              · simp [hk] at h
              · simp only [hk, if_false] at h
                exact lineinfile_present_noncompliant_nonempty _ _ _ _ _ _ _ h
      · -- Absent
        rcases ln with _ | line
        · simp at h
        · simp only [] at h
          rcases hp : (is_line_present env line fp priv).1 with e | fac <;> rw [hp] at h
          · simp at h
          · rcases fac with _ | nums
            · simp at h
            · simp at h
              obtain ⟨h1, h2⟩ := h
              subst h1
              simp
    · simp at h


/-- Helper: same final step for the apt draft, which returns an Option. -/
theorem apt_tail_some_nonempty {rems l : List Remediation} {tr t : Trace}
    (h : ((Except.ok (if only_none_remediations rems then Option.none else some rems) :
        Except Error (Option (List Remediation))), tr)
      = (Except.ok (some l), t)) : l ≠ [] := by
  split at h
  · simp at h
  · rename_i hc
    simp at h
    obtain ⟨h1, h2⟩ := h
    subst h1
    exact only_none_false_ne_nil (eq_false_of_ne_true hc)

/-- Helper for C7, apt kind. -/
theorem apt_assess_some_nonempty (s : AptBlockExpectedState) (env : Env)
    (priv : Privilege) (l : List Remediation) (t : Trace)
    (h : s.assess_compliance env priv = (Except.ok (some l), t)) : l ≠ [] := by
  obtain ⟨st, pk, up⟩ := s
  unfold AptBlockExpectedState.assess_compliance at h
  split at h
  · simp at h
  · split at h
    · simp at h
    · cases st with
      | none => exact apt_tail_some_nonempty h
      | some sv =>
        cases pk with
        | none => simp at h
        | some p => exact apt_tail_some_nonempty h

/-- Helper for C7, pacman kind. -/
theorem pacman_assess_noncompliant_nonempty (s : PacmanBlockExpectedState) (env : Env)
    (priv : Privilege) (l : List Remediation) (t : Trace)
    (h : s.assess_compliance env priv
      = (Except.ok (AttributeComplianceAssessment.NonCompliant l), t)) : l ≠ [] := by
  obtain ⟨st, pk, up⟩ := s
  unfold PacmanBlockExpectedState.assess_compliance at h
  split at h
  · simp at h
  · cases st with
    | none => exact assess_tail_nonempty h
    | some sv =>
      cases pk with
      | none => simp at h
      | some p => exact assess_tail_nonempty h

/-- Helper for C7, yumdnf kind. -/
theorem yumdnf_assess_noncompliant_nonempty (s : YumDnfBlockExpectedState) (env : Env)
    (priv : Privilege) (l : List Remediation) (t : Trace)
    (h : s.assess_compliance env priv
      = (Except.ok (AttributeComplianceAssessment.NonCompliant l), t)) : l ≠ [] := by
  obtain ⟨st, pk, up⟩ := s
  unfold YumDnfBlockExpectedState.assess_compliance at h
  cases hdnf : env.avail "dnf" Privilege.None with
  | false =>
    cases hyum : env.avail "yum" Privilege.None with
    | false =>
      rw [hdnf, hyum] at h
      simp at h
    | true =>
      rw [hdnf, hyum] at h
      cases st with
      | none => exact assess_tail_nonempty h
      | some sv =>
        cases pk with
        | none => simp at h
        | some p => exact assess_tail_nonempty h
  | true =>
    rw [hdnf] at h
    cases st with
    | none => exact assess_tail_nonempty h
    | some sv =>
      cases pk with
      | none => simp at h
      | some p => exact assess_tail_nonempty h

/-- C7: whatever the attribute kind and however the handler answers, an
assessment that returns NonCompliant carries a non-empty remediation list. -/
theorem nonCompliant_remediations_nonempty :
    ∀ (d : AttributeDetail) (env : Env) (priv : Privilege)
      (l : List Remediation) (t : Trace),
      AttributeDetail.assess d env priv
        = (Except.ok (AttributeComplianceAssessment.NonCompliant l), t) →
      l ≠ [] := by
  intro d env priv l t h
  cases d with
  | Apt s =>
    simp only [AttributeDetail.assess] at h
    rcases hin : s.assess_compliance env priv with ⟨fst, snd⟩
    rw [hin] at h
    match fst, h with
    | Except.ok (some lin), h =>
      simp at h
      obtain ⟨h1, h2⟩ := h
      subst h1
      exact apt_assess_some_nonempty s env priv lin snd hin
  | YumDnf s =>
    simp only [AttributeDetail.assess] at h
    exact yumdnf_assess_noncompliant_nonempty s env priv l t h
  | Pacman s =>
    simp only [AttributeDetail.assess] at h
    exact pacman_assess_noncompliant_nonempty s env priv l t h
  | LineInFile s =>
    simp only [AttributeDetail.assess] at h
    exact lineinfile_assess_noncompliant_nonempty s env priv l t h
  | Debug s =>
    simp [AttributeDetail.assess, DebugBlockExpectedState.assess_compliance] at h
    intro he
    subst he
    simp at h
  | Ping s =>
    simp only [AttributeDetail.assess] at h
    unfold PingBlockExpectedState.assess_compliance at h
    simp only [] at h
    split at h <;> simp at h
  | Service s =>
    simp only [AttributeDetail.assess] at h
    exact service_assess_noncompliant_nonempty s env priv l t h
  | Command s =>
    simp [AttributeDetail.assess, CommandBlockExpectedState.assess_compliance] at h
    intro he
    subst he
    simp at h

/-- Witness for C7 at a Command attribute, whose assessment always returns a
singleton NonCompliant list. -/
theorem nonCompliant_remediations_nonempty_witness :
    ([Remediation.Command ⟨"ls", Privilege.None⟩] : List Remediation) ≠ [] :=
  nonCompliant_remediations_nonempty (AttributeDetail.Command ⟨"ls"⟩)
    env_every_command_succeeds Privilege.None
    [Remediation.Command ⟨"ls", Privilege.None⟩] [] rfl

end Regent

namespace Regent

/-- Helper for C2: if a prefix of a remediation list runs without failure and the
next remediation fails, the managed-host remediation loop over the whole list
stops there — the remediations after the failing one contribute neither results
nor handler calls. -/
theorem managed_reach_remediations_append_failure (env : Env) (pre : List Remediation)
    (r : Remediation) (post : List Remediation)
    (res : List (Remediation × InternalApiCallOutcome)) (d : String) (t1 t2 : Trace)
    (h1 : managed_reach_remediations env pre = (Except.ok (res, false), t1))
    (h2 : r.reach_compliance env = (Except.ok (InternalApiCallOutcome.Failure d), t2)) :
    managed_reach_remediations env (pre ++ r :: post)
      = (Except.ok (res ++ [(r, InternalApiCallOutcome.Failure d)], true), t1 ++ t2) := by
  induction pre generalizing res t1 with
  | nil =>
    simp only [managed_reach_remediations] at h1
    obtain ⟨ha, hb⟩ := by simpa using h1
    subst ha
    subst hb
    simp [managed_reach_remediations, h2]
  | cons q pre ih =>
    unfold managed_reach_remediations at h1
    rcases hq : q.reach_compliance env with ⟨eq1, tq⟩
    rw [hq] at h1
    cases eq1 with
    | error e => simp at h1
    | ok outcome =>
      cases outcome with
      | Failure dd => simp at h1
      | Success =>
        rcases hrest : managed_reach_remediations env pre with ⟨er, tr⟩
        rw [hrest] at h1
        cases er with
        | error e => simp at h1
        | ok pr =>
          rcases pr with ⟨results, failed⟩
          simp at h1
          obtain ⟨⟨hres, hfail⟩, ht⟩ := h1
          subst hres
          subst hfail
          subst ht
          have ihh := ih results tr (by rw [hrest])
          show managed_reach_remediations env (q :: (pre ++ r :: post)) = _
          unfold managed_reach_remediations
          rw [hq, ihh]
          simp
      | AllowedFailure s2 =>
        rcases hrest : managed_reach_remediations env pre with ⟨er, tr⟩
        rw [hrest] at h1
        cases er with
        | error e => simp at h1
        | ok pr =>
          rcases pr with ⟨results, failed⟩
          simp at h1
          obtain ⟨⟨hres, hfail⟩, ht⟩ := h1
          subst hres
          subst hfail
          subst ht
          have ihh := ih results tr (by rw [hrest])
          show managed_reach_remediations env (q :: (pre ++ r :: post)) = _
          unfold managed_reach_remediations
          rw [hq, ihh]
          simp


/-- Helper for C2: the managed-host attribute loop is compositional over list
append as long as the prefix did not fail, with the host status combined by
host_status_comb. -/
theorem managed_reach_attrs_append (env : Env) (pre ys : List Attribute)
    (stp : HostComplianceStatus) (actsp : List (Attribute × AttributeComplianceResult))
    (tp : Trace) (sty : HostComplianceStatus)
    (actsy : List (Attribute × AttributeComplianceResult)) (ty : Trace)
    (h2 : managed_reach_attrs env ys = (Except.ok (sty, actsy), ty)) :
    ∀ (h1 : managed_reach_attrs env pre = (Except.ok (stp, actsp), tp))
      (hnf : stp ≠ HostComplianceStatus.FailedReachedCompliance),
    managed_reach_attrs env (pre ++ ys)
      = (Except.ok (host_status_comb stp sty, actsp ++ actsy), tp ++ ty) := by
  induction pre generalizing stp actsp tp with
  | nil =>
    intro h1 hnf
    simp only [managed_reach_attrs] at h1
    obtain ⟨⟨hs, ha⟩, ht⟩ := by simpa using h1
    subst hs
    subst ha
    subst ht
    simpa [host_status_comb] using h2
  | cons a pre ih =>
    intro h1 hnf
    unfold managed_reach_attrs at h1
    rcases hass : a.assess env with ⟨ea, ta⟩
    rw [hass] at h1
    cases ea with
    | error e => simp at h1
    | ok assessment =>
      cases assessment with
      | Compliant =>
        rcases hrest : managed_reach_attrs env pre with ⟨er, tr⟩
        rw [hrest] at h1
        cases er with
        | error e => simp at h1
        | ok pr =>
          rcases pr with ⟨st0, acts0⟩
          simp at h1
          obtain ⟨⟨hs, ha⟩, ht⟩ := h1
          subst hs
          subst ha
          subst ht
          have ihh := ih st0 acts0 tr (by rw [hrest]) hnf
          show managed_reach_attrs env (a :: (pre ++ ys)) = _
          unfold managed_reach_attrs
          rw [hass, ihh]
          simp
      | NonCompliant rems =>
        simp only [] at h1
        rcases hrem : managed_reach_remediations env rems with ⟨err, trr⟩
        rw [hrem] at h1
        cases err with
        | error e => simp at h1
        | ok pr =>
          rcases pr with ⟨results, failed⟩
          cases failed with
          | true =>
            simp at h1
            obtain ⟨⟨hs, ha⟩, ht⟩ := h1
            exact absurd hs.symm hnf
          | false =>
            rcases hrest : managed_reach_attrs env pre with ⟨er, tr⟩
            rw [hrest] at h1
            cases er with
            | error e => simp at h1
            | ok pr2 =>
              rcases pr2 with ⟨st0, acts0⟩
              simp at h1
              obtain ⟨⟨hs, ha⟩, ht⟩ := h1
              subst ha
              subst ht
              have hst0 : st0 ≠ HostComplianceStatus.FailedReachedCompliance := by
                intro hE
                subst hE
                exact hnf hs.symm
              have ihh := ih st0 acts0 tr (by rw [hrest]) hst0
              show managed_reach_attrs env (a :: (pre ++ ys)) = _
              unfold managed_reach_attrs
              rw [hass]
              simp only []
              rw [hrem, ihh]
              subst hs
              cases st0 <;> cases sty <;> simp [host_status_comb]


/-- C2: when during ManagedHost reach_compliance a remediation of attribute a
returns Failure after a failure-free prefix of remediations and a failure-free
prefix of attributes, the remediations after the failing one are not invoked,
the attribute is recorded FailedReachedCompliance with the prior outcomes plus
the failing one, the attributes after a are not processed (the result and the
handler-call trace do not depend on post at all), and the host result is
FailedReachedCompliance. -/
theorem reach_compliance_stops_at_first_failure (env : Env) (pre : List Attribute)
    (a : Attribute) (post : List Attribute) (rpre : List Remediation) (rf : Remediation)
    (rpost : List Remediation) (d : String)
    (res_pre : List (Remediation × InternalApiCallOutcome))
    (stp : HostComplianceStatus) (actsp : List (Attribute × AttributeComplianceResult))
    (tp ta trp tf : Trace)
    (hconn : env.connected = true)
    (hpre : managed_reach_attrs env pre = (Except.ok (stp, actsp), tp))
    (hnf : stp ≠ HostComplianceStatus.FailedReachedCompliance)
    (hass : a.assess env
      = (Except.ok (AttributeComplianceAssessment.NonCompliant (rpre ++ rf :: rpost)), ta))
    (hrpre : managed_reach_remediations env rpre = (Except.ok (res_pre, false), trp))
    (hf : rf.reach_compliance env = (Except.ok (InternalApiCallOutcome.Failure d), tf)) :
    ManagedHost.reach_compliance env (pre ++ a :: post)
      = (Except.ok ⟨HostComplianceStatus.FailedReachedCompliance,
          actsp ++ [(a, ⟨AttributeComplianceStatus.FailedReachedCompliance,
            some (res_pre ++ [(rf, InternalApiCallOutcome.Failure d)])⟩)]⟩,
         tp ++ (ta ++ (trp ++ tf))) := by
  have hrem := managed_reach_remediations_append_failure env rpre rf rpost res_pre d
    trp tf hrpre hf
  have hsingle : managed_reach_attrs env (a :: post)
      = (Except.ok (HostComplianceStatus.FailedReachedCompliance,
          [(a, ⟨AttributeComplianceStatus.FailedReachedCompliance,
            some (res_pre ++ [(rf, InternalApiCallOutcome.Failure d)])⟩)]),
         ta ++ (trp ++ tf)) := by
    unfold managed_reach_attrs
    rw [hass]
    simp only []
    rw [hrem]
    simp
  have happ := managed_reach_attrs_append env pre (a :: post) stp actsp tp
    HostComplianceStatus.FailedReachedCompliance
    [(a, ⟨AttributeComplianceStatus.FailedReachedCompliance,
      some (res_pre ++ [(rf, InternalApiCallOutcome.Failure d)])⟩)]
    (ta ++ (trp ++ tf)) hsingle hpre hnf
  unfold ManagedHost.reach_compliance
  rw [hconn]
  simp only [Bool.not_true, Bool.false_eq_true, if_false]
  rw [happ]
  cases stp
  · simp [host_status_comb]
  · simp [host_status_comb]
  · simp [host_status_comb]
  · exact absurd rfl hnf

end Regent


namespace Regent

/-- Witness for C2: the spec scenario 4 — a failing apt-style package install
(here the pacman kind, exit 100) aborts the host run and the following service
attribute is never evaluated (no systemctl call in the trace). -/
theorem reach_compliance_stops_at_first_failure_witness :
    ManagedHost.reach_compliance env_pacman_boinc_fails
        [⟨Privilege.WithSudo, AttributeDetail.Pacman
            ⟨some PackageExpectedState.Present, some "boinc", Option.none⟩⟩,
         ⟨Privilege.WithSudo, AttributeDetail.Service
            ⟨"boinc-client", some ServiceExpectedStatus.Active,
              some ServiceExpectedAutoStart.Enabled, Option.none⟩⟩]
      = (Except.ok ⟨HostComplianceStatus.FailedReachedCompliance,
          [(⟨Privilege.WithSudo, AttributeDetail.Pacman
              ⟨some PackageExpectedState.Present, some "boinc", Option.none⟩⟩,
            ⟨AttributeComplianceStatus.FailedReachedCompliance,
              some [(Remediation.Pacman ⟨PacmanModuleInternalApiCall.Install "boinc",
                  Privilege.WithSudo⟩,
                InternalApiCallOutcome.Failure "RC : 100, STDOUT : boum, STDERR : ")]⟩)]⟩,
         [HandlerCall.Avail "pacman" Privilege.None,
          HandlerCall.Run "LC_ALL=en_US.UTF-8 pacman -Q -i boinc" Privilege.None,
          HandlerCall.Run "pacman --noconfirm -S boinc" Privilege.WithSudo]) := by
  exact reach_compliance_stops_at_first_failure env_pacman_boinc_fails []
    ⟨Privilege.WithSudo, AttributeDetail.Pacman
      ⟨some PackageExpectedState.Present, some "boinc", Option.none⟩⟩
    [⟨Privilege.WithSudo, AttributeDetail.Service
      ⟨"boinc-client", some ServiceExpectedStatus.Active,
        some ServiceExpectedAutoStart.Enabled, Option.none⟩⟩]
    [] (Remediation.Pacman ⟨PacmanModuleInternalApiCall.Install "boinc", Privilege.WithSudo⟩)
    [] "RC : 100, STDOUT : boum, STDERR : " []
    HostComplianceStatus.AlreadyCompliant [] []
    [HandlerCall.Avail "pacman" Privilege.None,
     HandlerCall.Run "LC_ALL=en_US.UTF-8 pacman -Q -i boinc" Privilege.None]
    [] [HandlerCall.Run "pacman --noconfirm -S boinc" Privilege.WithSudo]
    rfl rfl (by decide) rfl rfl rfl

end Regent
